import Mathlib

/-!
Shallow embedding of the construction-tracking REST API (`test_api_pg`).

The modelled code:
* `src/routes/auth.js` (second router in the file): `PUT /api/house-activities/:id`
  — status derivation, activity → house progress rollup, house → project rollup;
* `src/routes/houses.js` (first router): `POST /api/houses` (bulk activity
  instantiation) and `PUT /api/houses/:id` (whose `UPDATE` always fails on the
  literal `progress = ?` fragment sent through `pool.query` — see
  `updateHouse` — so only its guard paths are observable).

Conventions of the embedding:
* JS `undefined` (field absent from the request body) is the outer `Option`;
  JS `null` (and other falsy values that the handlers coerce to `NULL`,
  e.g. the empty string for date fields) is the inner `Option`'s `none`.
* Timestamps and row ids are `Nat`; `NOW()` is an explicit `now` parameter.
* Monetary-free numeric columns (`completed_activities`, `total_activities`,
  `houses_completed`) are `Int`; `progress` (SQL `NUMERIC`) is `ℚ`.
* Each SQL table is an association list `List (Nat × row)`; `UPDATE ... WHERE
  id = k` rewrites every pair whose key is `k`, `SELECT ... WHERE id = k`
  returns the first.
* Descriptive columns that no modelled handler reads (`num`, `phase`,
  `sub_phase`, `activity`, `dependance`, `open_date` on activities) are
  omitted: they are copied verbatim at creation time and never consulted.
* The handlers issue plain `pool.query` statements with no surrounding
  transaction (contrast `POST /api/houses`, which uses `BEGIN`/`COMMIT`);
  the failure model below reflects that.
-/

namespace CreekSide

/-- `house_activity_status` enum of the schema. -/
inductive ActStatus
  | pending | in_progress | review | completed | blocked | rejected
  deriving DecidableEq, Repr

/-- `house_status` enum of the schema. -/
inductive HouseStatus
  | in_progress | completed | delayed
  deriving DecidableEq, Repr

/-- `user_role` enum of the schema. -/
inductive Role
  | surveyor | reviewer | admin
  deriving DecidableEq, Repr

/-- The authenticated caller (`req.jwtUser`): id and role. -/
structure Caller where
  id : Nat
  role : Role
  deriving DecidableEq, Repr

/-- Row of `app_house_activities` (workflow columns only; the descriptive
columns copied from the template are never read by the modelled handlers). -/
structure Activity where
  houseId : Nat
  status : ActStatus := .pending
  startDate : Option Nat := none
  completionDate : Option Nat := none
  isBlocked : Bool := false
  rejectedRemarks : Option String := none
  approvedById : Option Nat := none
  approvedAt : Option Nat := none
  appUserId : Option Nat := none
  remarks : Option String := none
  deriving DecidableEq, Repr

/-- Row of `app_houses`. -/
structure House where
  projectId : Option Nat := none
  status : HouseStatus := .in_progress
  progress : ℚ := 0
  completedActivities : Int := 0
  totalActivities : Int := 0
  coto : Option String := none
  name : Option String := none
  model : Option String := none
  description : Option String := none
  houseImage : Option String := none
  m2const : Option String := none
  deriving DecidableEq, Repr

/-- Row of `app_projects` (only the column the modelled handlers touch). -/
structure Project where
  housesCompleted : Int := 0
  deriving DecidableEq, Repr

/-- Row of `app_activities` (the master template list; only the columns the
house-creation handler consults). -/
structure Template where
  num : Int := 0
  isActive : Bool := true
  deriving DecidableEq, Repr

/-- The relational store: each table keyed by row id. -/
structure DB where
  activities : List (Nat × Activity) := []
  houses : List (Nat × House) := []
  projects : List (Nat × Project) := []
  templates : List (Nat × Template) := []
  deriving DecidableEq, Repr

/-- `SELECT * FROM t WHERE id = k` (first matching row). -/
def lookupRow (l : List (Nat × α)) (k : Nat) : Option α :=
  (l.find? (fun p => p.1 = k)).map (·.2)

/-- `UPDATE t SET row WHERE id = k` (rewrites every matching row). -/
def setRow (l : List (Nat × α)) (k : Nat) (v : α) : List (Nat × α) :=
  l.map (fun p => if p.1 = k then (p.1, v) else p)

/-- `UPDATE t SET col = f col WHERE id = k`. -/
def mapRow (l : List (Nat × α)) (k : Nat) (f : α → α) : List (Nat × α) :=
  l.map (fun p => if p.1 = k then (p.1, f p.2) else p)

/-- `SELECT COUNT(*) FROM app_house_activities WHERE house_id = $1 AND
status = 'completed'`. -/
def countCompleted (db : DB) (hid : Nat) : Nat :=
  (db.activities.filter
    (fun p => p.2.houseId = hid ∧ p.2.status = .completed)).length

/-- JS truthiness-plus-trim test used on rejection remarks:
`rejectedValue && rejectedValue.trim() !== ""`. -/
def jsRemarksTruthy : Option String → Bool
  | none => false
  | some s => s ≠ "" && s.trim ≠ ""

/-- The six-step precedence of the handler (auth.js, `PUT /:id` derivation
block), as a pure function of the five effective field values. -/
def deriveStatus (isBlocked : Bool) (rejectedRemarks : Option String)
    (completionDate approvedById startDate : Option Nat) : ActStatus :=
  if isBlocked then .blocked
  else if jsRemarksTruthy rejectedRemarks then .rejected
  else if completionDate.isSome && approvedById.isSome then .completed
  else if completionDate.isSome && !approvedById.isSome then .review
  else if startDate.isSome then .in_progress
  else .pending

/-- Parse the `status` body field of the house-activities handler; `none`
for any string outside the closed enum (handler responds 400). -/
def parseActStatus : String → Option ActStatus
  | "pending" => some .pending
  | "in_progress" => some .in_progress
  | "review" => some .review
  | "completed" => some .completed
  | "blocked" => some .blocked
  | "rejected" => some .rejected
  | _ => none

/-- Parse the `status` body field of the houses handlers. -/
def parseHouseStatus : String → Option HouseStatus
  | "in_progress" => some .in_progress
  | "completed" => some .completed
  | "delayed" => some .delayed
  | _ => none

/-- HTTP-level outcome of a handler (the body is not modelled). -/
inductive Resp
  | ok | notFound | badRequest | forbidden | serverError
  deriving DecidableEq, Repr

/-! ## `PUT /api/house-activities/:id` (auth.js, second router) -/

/-- Request body of the house-activity update. Outer `Option` = field absent
(`undefined`), inner `Option` = JS `null` (or an empty/falsy value the handler
coerces to `NULL`). -/
structure ActBody where
  startDate : Option (Option Nat) := none
  completionDate : Option (Option Nat) := none
  isBlocked : Option Bool := none
  appUserId : Option (Option Nat) := none
  remarks : Option (Option String) := none
  rejectedRemarks : Option (Option String) := none
  approvedById : Option (Option Nat) := none
  status : Option String := none
  deriving DecidableEq, Repr

/-- Marker for an entry of the handler's `updates` array (one SQL `SET`
fragment); used for the `updates.length === 0` check and for the
`update.includes("status")` probe. -/
inductive Col
  | startDateNow | completionDateNow
  | startDateCol | completionDateCol | remarksCol | appUserIdCol
  | approvedByIdCol | approvedAtCol | isBlockedCol | rejectedRemarksCol
  | statusCol
  deriving DecidableEq, Repr

/-- Which `SET` fragments contain the substring `"status"` (only
`status = $n` does). -/
def Col.mentionsStatus : Col → Bool
  | .statusCol => true
  | _ => false

/-- `["reviewer", "admin"].includes(req.jwtUser.role)`. -/
def isReviewerRole (r : Role) : Bool := r = .reviewer || r = .admin

/-- `req.jwtUser.role === "surveyor"`. -/
def isSurveyorRole (r : Role) : Bool := r = .surveyor

/-- The surveyor branch guard:
`isSurveyor && (appUserId === req.jwtUser.id || appUserId === undefined)`.
Note it inspects only the incoming `appUserId`, never the activity's stored
assignee. -/
def survGate (c : Caller) (b : ActBody) : Bool :=
  isSurveyorRole c.role &&
    (b.appUserId = some (some c.id) || b.appUserId = none)

/-- `!existing[0].startDate && (req.body.status == "pending" ||
req.body.status == "review")` — the start-date side effect looks only at the
raw request `status` string. -/
def sideStartCond (a : Activity) (b : ActBody) : Bool :=
  a.startDate = none &&
    (b.status = some "pending" || b.status = some "review")

/-- `!existing[0].completionDate && req.body.status == "completed"`. -/
def sideCompletionCond (a : Activity) (b : ActBody) : Bool :=
  a.completionDate = none && b.status = some "completed"

/-- The `updates` array (as column markers), in push order. -/
def actCols (a : Activity) (c : Caller) (b : ActBody) : List Col :=
  (if sideStartCond a b then [.startDateNow] else []) ++
  (if sideCompletionCond a b then [.completionDateNow] else []) ++
  (if survGate c b then
      (if b.startDate.isSome then [.startDateCol] else []) ++
      (if b.completionDate.isSome then [.completionDateCol] else []) ++
      (if b.remarks.isSome then [.remarksCol] else []) ++
      (if b.appUserId.isSome then [.appUserIdCol] else [])
    else []) ++
  (if isReviewerRole c.role then
      (if b.approvedById.isSome then [.approvedByIdCol, .approvedAtCol] else []) ++
      (if b.isBlocked.isSome then [.isBlockedCol] else []) ++
      (if b.remarks.isSome then [.remarksCol] else []) ++
      (if b.rejectedRemarks.isSome then [.rejectedRemarksCol] else []) ++
      (if b.status.isSome then [.statusCol] else [])
    else [])

/-- "Effective value": incoming value if the field is present, else the
stored one (`x !== undefined ? x : existing[0].x`). -/
def effOpt (inc : Option (Option α)) (cur : Option α) : Option α :=
  match inc with
  | some v => v
  | none => cur

/-- The derivation block of the handler: `deriveStatus` applied to the five
effective values. It uses the raw request values even when the caller's role
is not permitted to persist them. -/
def derivedStatus (a : Activity) (b : ActBody) : ActStatus :=
  deriveStatus (b.isBlocked.getD a.isBlocked)
    (effOpt b.rejectedRemarks a.rejectedRemarks)
    (effOpt b.completionDate a.completionDate)
    (effOpt b.approvedById a.approvedById)
    (effOpt b.startDate a.startDate)

/-- The two `NOW()` side-effect fragments (pushed first; their guards read
the existing row `a`). -/
def actSide (a : Activity) (b : ActBody) (now : Nat) : Activity :=
  let r := if sideStartCond a b then { a with startDate := some now } else a
  if sideCompletionCond a b then { r with completionDate := some now } else r

/-- The surveyor block's fragments. -/
def actSurv (c : Caller) (b : ActBody) (r : Activity) : Activity :=
  if survGate c b then
    let r := match b.startDate with
      | some v => { r with startDate := v }
      | none => r
    let r := match b.completionDate with
      | some v => { r with completionDate := v }
      | none => r
    let r := match b.remarks with
      | some v => { r with remarks := v }
      | none => r
    match b.appUserId with
    | some v => { r with appUserId := v }
    | none => r
  else r

/-- The reviewer block's non-status fragments. -/
def actRev (c : Caller) (b : ActBody) (now : Nat) (r : Activity) : Activity :=
  if isReviewerRole c.role then
    let r := match b.approvedById with
      | some v =>
          { r with approvedById := v,
                   approvedAt := if v.isSome then some now else none }
      | none => r
    let r := match b.isBlocked with
      | some v => { r with isBlocked := v }
      | none => r
    let r := match b.remarks with
      | some v => { r with remarks := v }
      | none => r
    match b.rejectedRemarks with
    | some v => { r with rejectedRemarks := v }
    | none => r
  else r

/-- The row produced by the non-status `SET` fragments, applied in push
order (a later fragment for the same column overrides an earlier one). -/
def actApplyBase (a : Activity) (c : Caller) (b : ActBody) (now : Nat) :
    Activity :=
  actRev c b now (actSurv c b (actSide a b now))

/-- `UPDATE app_projects SET houses_completed = houses_completed + 1`. -/
def incHousesCompleted (db : DB) (pid : Nat) : DB :=
  { db with projects := (mapRow db.projects pid
      (fun pr => { pr with housesCompleted := pr.housesCompleted + 1 })) }

/-- `UPDATE app_projects SET houses_completed = GREATEST(houses_completed - 1, 0)`. -/
def decHousesCompleted (db : DB) (pid : Nat) : DB :=
  { db with projects := (mapRow db.projects pid
      (fun pr => { pr with housesCompleted := max (pr.housesCompleted - 1) 0 })) }

/-- The rollup's recount, as the handler stores it (`COUNT(*)::int`). -/
def rollupCompleted (db : DB) (hid : Nat) : Int :=
  (countCompleted db hid : Int)

/-- `progress = totalActivities > 0 ? completed / total * 100 : 0` (reading
`totalActivities` from the pre-rollup house row `h`). -/
def rollupProgress (db : DB) (hid : Nat) (h : House) : ℚ :=
  if 0 < h.totalActivities
  then (rollupCompleted db hid : ℚ) / (h.totalActivities : ℚ) * 100
  else 0

/-- The house-status derivation of the rollup block:
`completed === total && completed !== 0` → completed, else
`completed < total && previous === completed` → in_progress, else keep. -/
def rollupNewHouseStatus (db : DB) (hid : Nat) (h : House) : HouseStatus :=
  if rollupCompleted db hid = h.totalActivities ∧ rollupCompleted db hid ≠ 0
  then .completed
  else if rollupCompleted db hid < h.totalActivities ∧ h.status = .completed
  then .in_progress
  else h.status

/-- The activity → house → project rollup block (runs after the activity row
was updated; `db` is the post-update store). -/
def activityRollup (db : DB) (hid : Nat) : DB :=
  match lookupRow db.houses hid with
  | none => db
  | some h =>
    let h1 : House := { h with completedActivities := rollupCompleted db hid,
                               progress := rollupProgress db hid h }
    let db1 : DB := { db with houses := setRow db.houses hid h1 }
    let newStatus := rollupNewHouseStatus db hid h
    if newStatus ≠ h.status then
      let db2 : DB :=
        { db1 with houses := setRow db1.houses hid { h1 with status := newStatus } }
      match h.projectId with
      | some pid =>
        if newStatus = .completed ∧ h.status ≠ .completed then
          incHousesCompleted db2 pid
        else if newStatus ≠ .completed ∧ h.status = .completed then
          decHousesCompleted db2 pid
        else db2
      | none => db2
    else db1

/-- `newStatus`: the explicit reviewer status if one was (validly) supplied,
else the derivation-chain result. -/
def actNewStatus (a : Activity) (b : ActBody) (explicitSt : Option ActStatus) :
    ActStatus :=
  explicitSt.getD (derivedStatus a b)

/-- The final `updates` array: the derived status is pushed when it differs
from the stored one and no `status = $n` fragment is present yet
(`hasStatusUpdate` is the handler's `update.includes("status")` scan). -/
def actFinalCols (a : Activity) (c : Caller) (b : ActBody)
    (explicitSt : Option ActStatus) : List Col :=
  let cols0 := actCols a c b
  let hasStatusUpdate := cols0.any Col.mentionsStatus
  if explicitSt.isNone && decide (derivedStatus a b ≠ a.status) && !hasStatusUpdate
  then cols0 ++ [.statusCol] else cols0

/-- The row written by `UPDATE app_house_activities SET ...`. -/
def actNewRow (a : Activity) (c : Caller) (b : ActBody) (now : Nat)
    (explicitSt : Option ActStatus) : Activity :=
  let base := actApplyBase a c b now
  if (actFinalCols a c b explicitSt).any Col.mentionsStatus
  then { base with status := actNewStatus a b explicitSt }
  else base

/-- Body of the handler once the row was found and an explicit status (if
any) was validated. `failRollup = true` models the first rollup query (the
completed COUNT) raising: absent any transaction the activity `UPDATE` has
already been committed, so the catch block answers 500 with the activity
write in place and house/project rows untouched. -/
def actUpdateCore (db : DB) (aid : Nat) (a : Activity) (c : Caller)
    (b : ActBody) (now : Nat) (explicitSt : Option ActStatus)
    (failRollup : Bool) : Resp × DB :=
  let prev := a.status
  let newStatus := actNewStatus a b explicitSt
  if (actFinalCols a c b explicitSt).isEmpty then (.badRequest, db)
  else
    let db1 : DB := { db with activities := (setRow db.activities aid
      (actNewRow a c b now explicitSt)) }
    if (prev ≠ .completed ∧ newStatus = .completed) ∨
       (prev = .completed ∧ newStatus ≠ .completed) then
      if failRollup then (.serverError, db1)
      else (.ok, activityRollup db1 a.houseId)
    else (.ok, db1)

/-- The full handler, parameterised by whether the rollup's first query
raises. -/
def actUpdateRun (failRollup : Bool) (db : DB) (aid : Nat) (c : Caller)
    (b : ActBody) (now : Nat) : Resp × DB :=
  match lookupRow db.activities aid with
  | none => (.notFound, db)
  | some a =>
    match b.status with
    | some s =>
      if isReviewerRole c.role then
        match parseActStatus s with
        | none => (.badRequest, db)
        | some st => actUpdateCore db aid a c b now (some st) failRollup
      else actUpdateCore db aid a c b now none failRollup
    | none => actUpdateCore db aid a c b now none failRollup

/-- `PUT /api/house-activities/:id`, all queries succeeding. -/
def updateHouseActivity (db : DB) (aid : Nat) (c : Caller) (b : ActBody)
    (now : Nat) : Resp × DB :=
  actUpdateRun false db aid c b now

/-- `PUT /api/house-activities/:id` when the rollup's COUNT query raises
(see `actUpdateCore`). -/
def updateHouseActivityRollupFails (db : DB) (aid : Nat) (c : Caller)
    (b : ActBody) (now : Nat) : Resp × DB :=
  actUpdateRun true db aid c b now

/-! ## `PUT /api/houses/:id` and `POST /api/houses` (houses.js, first router) -/

/-- JS truthiness for an optional string (the only falsy string is `""`). -/
def jsTruthyStr : Option String → Bool
  | some s => s ≠ ""
  | none => false

/-- `x || null`. -/
def jsOrNull : Option String → Option String
  | some s => if s = "" then none else some s
  | none => none

/-- Request body of the house update. -/
structure HouseBody where
  projectId : Option (Option Nat) := none
  coto : Option (Option String) := none
  name : Option (Option String) := none
  houseName : Option (Option String) := none
  model : Option (Option String) := none
  status : Option String := none
  description : Option (Option String) := none
  houseImage : Option (Option String) := none
  m2const : Option (Option String) := none
  completedActivities : Option Int := none
  totalActivities : Option Int := none
  deriving DecidableEq, Repr

/-- Marker for an entry of the house handler's `updates` array (before the
unconditional `progress` push, which follows the emptiness check). -/
inductive HCol
  | projectIdCol | cotoCol | nameCol | modelCol | statusCol | descriptionCol
  | houseImageCol | m2constCol | completedCol | totalCol
  deriving DecidableEq, Repr

/-- The house handler's `updates` array as pushed before the emptiness
check. -/
def houseCols (b : HouseBody) : List HCol :=
  (if b.projectId.isSome then [.projectIdCol] else []) ++
  (if b.coto.isSome then [.cotoCol] else []) ++
  (if b.name.isSome || b.houseName.isSome then [.nameCol] else []) ++
  (if b.model.isSome then [.modelCol] else []) ++
  (if b.status.isSome then [.statusCol] else []) ++
  (if b.description.isSome then [.descriptionCol] else []) ++
  (if b.houseImage.isSome then [.houseImageCol] else []) ++
  (if b.m2const.isSome then [.m2constCol] else []) ++
  (if b.completedActivities.isSome then [.completedCol] else []) ++
  (if b.totalActivities.isSome then [.totalCol] else [])

/-- `PUT /api/houses/:id` (`requireRole("admin", "reviewer")`). After the
`updates.length === 0` check the handler unconditionally pushes the
literal fragment `progress = ?` (`updates.push("progress = ?")`) and sends
the query through pg's `pool.query`, which binds only `$n` placeholders —
the `?` reaches PostgreSQL verbatim and the `UPDATE` raises a syntax
error. Every request that reaches the `UPDATE` therefore lands in the
catch block: 500 with nothing written, and the project-counter statements
after the `UPDATE` are never executed. Only the guard paths before the
`UPDATE` (403 role, 404 missing house, 400 bad project / bad status /
empty update list) behave as written. -/
def updateHouse (db : DB) (hid : Nat) (c : Caller) (b : HouseBody) :
    Resp × DB :=
  if !(c.role = .admin || c.role = .reviewer) then (.forbidden, db)
  else match lookupRow db.houses hid with
  | none => (.notFound, db)
  | some _ =>
    -- `projectId !== undefined && projectId !== null` → must exist
    if (match b.projectId with
        | some (some p) => (lookupRow db.projects p).isNone
        | _ => false) then (.badRequest, db)
    else match b.status with
    | some s =>
      match parseHouseStatus s with
      | none => (.badRequest, db)
      | some _ =>
        if (houseCols b).isEmpty then (.badRequest, db)
        else (.serverError, db)
    | none =>
      if (houseCols b).isEmpty then (.badRequest, db)
      else (.serverError, db)

/-- Request body of `POST /api/houses` (for the string fields only JS
truthiness matters — every value goes through `x || null`). -/
structure CreateHouseBody where
  projectId : Option (Option Nat) := none
  coto : Option String := none
  name : Option String := none
  houseName : Option String := none
  model : Option String := none
  status : Option String := none
  description : Option String := none
  houseImage : Option String := none
  m2const : Option String := none
  deriving DecidableEq, Repr

/-- `POST /api/houses` (`requireRole("admin", "reviewer")`): runs inside a
real `BEGIN`/`COMMIT` transaction, so every error path returns the store
unchanged. `newHouseId` models `generateUUID()` for the house and
`actBaseId + i` the UUIDs of the instantiated activities. -/
def createHouse (db : DB) (c : Caller) (b : CreateHouseBody)
    (newHouseId : Nat) (actBaseId : Nat) : Resp × DB :=
  if !(c.role = .admin || c.role = .reviewer) then (.forbidden, db)
  else
    let status := b.status.getD "in_progress"
    let finalName := if jsTruthyStr b.houseName then b.houseName else b.name
    if !(jsTruthyStr finalName) then (.badRequest, db)
    else match parseHouseStatus status with
    | none => (.badRequest, db)
    | some st =>
      let projectId : Option Nat := match b.projectId with
        | some (some p) => some p
        | _ => none
      -- `if (projectId)` — validate only a truthy projectId
      if (match projectId with
          | some p => (lookupRow db.projects p).isNone
          | none => false) then (.badRequest, db)
      else
        let house : House :=
          { projectId := projectId, coto := jsOrNull b.coto,
            name := finalName, model := jsOrNull b.model, status := st,
            progress := 0, description := jsOrNull b.description,
            houseImage := jsOrNull b.houseImage, m2const := jsOrNull b.m2const,
            completedActivities := 0, totalActivities := 0 }
        let db1 : DB := { db with houses := db.houses ++ [(newHouseId, house)] }
        -- `SELECT * FROM app_activities WHERE is_active = TRUE ORDER BY num`
        -- (the order only affects the copied descriptive columns)
        let active := db.templates.filter (fun p => p.2.isActive)
        -- empty master list → ROLLBACK: the house insert is undone too
        if active.isEmpty then (.badRequest, db)
        else
          let newActs : List (Nat × Activity) :=
            (List.range active.length).map
              (fun i => (actBaseId + i, { houseId := newHouseId, status := .pending }))
          let db2 : DB := { db1 with activities := db1.activities ++ newActs }
          let db3 : DB := { db2 with houses := (setRow db2.houses newHouseId
              { house with totalActivities := (active.length : Int) }) }
          let db4 := if status = "completed" ∧ projectId.isSome then
              (match projectId with
               | some p => incHousesCompleted db3 p
               | none => db3)
            else db3
          (.ok, db4)

/-! ## Store lemmas -/

theorem lookupRow_cons (p : Nat × α) (t : List (Nat × α)) (k : Nat) :
    lookupRow (p :: t) k = if p.1 = k then some p.2 else lookupRow t k := by
  by_cases h : p.1 = k <;> simp [lookupRow, List.find?_cons, h]

theorem lookupRow_setRow_self {l : List (Nat × α)} {k : Nat} {x : α} (v : α)
    (h : lookupRow l k = some x) : lookupRow (setRow l k v) k = some v := by
  induction l with
  | nil => simp [lookupRow] at h
  | cons p t ih =>
    rw [lookupRow_cons] at h
    simp only [setRow, List.map_cons]
    by_cases hk : p.1 = k
    · simp only [if_pos hk, lookupRow_cons]
    · simp only [if_neg hk, lookupRow_cons] at h ⊢
      exact ih h

theorem lookupRow_setRow_ne {l : List (Nat × α)} {k k' : Nat} (v : α)
    (hk : k' ≠ k) : lookupRow (setRow l k v) k' = lookupRow l k' := by
  induction l with
  | nil => simp [lookupRow, setRow]
  | cons p t ih =>
    simp only [setRow, List.map_cons]
    by_cases hpk : p.1 = k
    · rw [if_pos hpk, lookupRow_cons, lookupRow_cons,
        if_neg (by rw [hpk]; exact fun h => hk h.symm),
        if_neg (by rw [hpk]; exact fun h => hk h.symm)]
      exact ih
    · rw [if_neg hpk, lookupRow_cons, lookupRow_cons]
      by_cases hpk' : p.1 = k'
      · rw [if_pos hpk', if_pos hpk']
      · rw [if_neg hpk', if_neg hpk']
        exact ih

theorem lookupRow_mapRow_self {l : List (Nat × α)} {k : Nat} {x : α}
    (f : α → α) (h : lookupRow l k = some x) :
    lookupRow (mapRow l k f) k = some (f x) := by
  induction l with
  | nil => simp [lookupRow] at h
  | cons p t ih =>
    rw [lookupRow_cons] at h
    simp only [mapRow, List.map_cons]
    by_cases hk : p.1 = k
    · rw [if_pos hk] at h
      rw [if_pos hk, lookupRow_cons, if_pos hk]
      simp only [Option.some_inj] at h
      rw [h]
    · rw [if_neg hk] at h
      rw [if_neg hk, lookupRow_cons, if_neg hk]
      exact ih h

theorem lookupRow_mapRow_ne {l : List (Nat × α)} {k k' : Nat} (f : α → α)
    (hk : k' ≠ k) : lookupRow (mapRow l k f) k' = lookupRow l k' := by
  induction l with
  | nil => simp [lookupRow, mapRow]
  | cons p t ih =>
    simp only [mapRow, List.map_cons]
    by_cases hpk : p.1 = k
    · rw [if_pos hpk, lookupRow_cons, lookupRow_cons,
        if_neg (by rw [hpk]; exact fun h => hk h.symm),
        if_neg (by rw [hpk]; exact fun h => hk h.symm)]
      exact ih
    · rw [if_neg hpk, lookupRow_cons, lookupRow_cons]
      by_cases hpk' : p.1 = k'
      · rw [if_pos hpk', if_pos hpk']
      · rw [if_neg hpk', if_neg hpk']
        exact ih

/-! ## Field-level characterisation of the activity `SET` fragments -/

theorem actSide_startDate : (actSide a b now).startDate =
    (if sideStartCond a b then some now else a.startDate) := by
  simp only [actSide]; split_ifs <;> rfl

theorem actSide_completionDate : (actSide a b now).completionDate =
    (if sideCompletionCond a b then some now else a.completionDate) := by
  simp only [actSide]; split_ifs <;> rfl

theorem actSide_houseId : (actSide a b now).houseId = a.houseId := by
  simp only [actSide]; split_ifs <;> rfl

theorem actSide_status : (actSide a b now).status = a.status := by
  simp only [actSide]; split_ifs <;> rfl

theorem actSide_isBlocked : (actSide a b now).isBlocked = a.isBlocked := by
  simp only [actSide]; split_ifs <;> rfl

theorem actSide_rejectedRemarks :
    (actSide a b now).rejectedRemarks = a.rejectedRemarks := by
  simp only [actSide]; split_ifs <;> rfl

theorem actSide_approvedById :
    (actSide a b now).approvedById = a.approvedById := by
  simp only [actSide]; split_ifs <;> rfl

theorem actSide_approvedAt : (actSide a b now).approvedAt = a.approvedAt := by
  simp only [actSide]; split_ifs <;> rfl

theorem actSide_appUserId : (actSide a b now).appUserId = a.appUserId := by
  simp only [actSide]; split_ifs <;> rfl

theorem actSide_remarks : (actSide a b now).remarks = a.remarks := by
  simp only [actSide]; split_ifs <;> rfl

theorem actSurv_startDate : (actSurv c b r).startDate =
    (if survGate c b ∧ b.startDate.isSome
     then effOpt b.startDate r.startDate else r.startDate) := by
  simp only [actSurv]
  by_cases hg : survGate c b = true <;>
    cases b.startDate <;> cases b.completionDate <;> cases b.remarks <;>
      cases b.appUserId <;> simp_all [effOpt]

theorem actSurv_completionDate : (actSurv c b r).completionDate =
    (if survGate c b ∧ b.completionDate.isSome
     then effOpt b.completionDate r.completionDate else r.completionDate) := by
  simp only [actSurv]
  by_cases hg : survGate c b = true <;>
    cases b.startDate <;> cases b.completionDate <;> cases b.remarks <;>
      cases b.appUserId <;> simp_all [effOpt]

theorem actSurv_remarks : (actSurv c b r).remarks =
    (if survGate c b ∧ b.remarks.isSome
     then effOpt b.remarks r.remarks else r.remarks) := by
  simp only [actSurv]
  by_cases hg : survGate c b = true <;>
    cases b.startDate <;> cases b.completionDate <;> cases b.remarks <;>
      cases b.appUserId <;> simp_all [effOpt]

theorem actSurv_appUserId : (actSurv c b r).appUserId =
    (if survGate c b ∧ b.appUserId.isSome
     then effOpt b.appUserId r.appUserId else r.appUserId) := by
  simp only [actSurv]
  by_cases hg : survGate c b = true <;>
    cases b.startDate <;> cases b.completionDate <;> cases b.remarks <;>
      cases b.appUserId <;> simp_all [effOpt]

theorem actSurv_houseId : (actSurv c b r).houseId = r.houseId := by
  simp only [actSurv]
  split_ifs
  · cases b.startDate <;> cases b.completionDate <;> cases b.remarks <;>
      cases b.appUserId <;> rfl
  · rfl

theorem actSurv_status : (actSurv c b r).status = r.status := by
  simp only [actSurv]
  split_ifs
  · cases b.startDate <;> cases b.completionDate <;> cases b.remarks <;>
      cases b.appUserId <;> rfl
  · rfl

theorem actSurv_isBlocked : (actSurv c b r).isBlocked = r.isBlocked := by
  simp only [actSurv]
  split_ifs
  · cases b.startDate <;> cases b.completionDate <;> cases b.remarks <;>
      cases b.appUserId <;> rfl
  · rfl

theorem actSurv_rejectedRemarks :
    (actSurv c b r).rejectedRemarks = r.rejectedRemarks := by
  simp only [actSurv]
  split_ifs
  · cases b.startDate <;> cases b.completionDate <;> cases b.remarks <;>
      cases b.appUserId <;> rfl
  · rfl

theorem actSurv_approvedById :
    (actSurv c b r).approvedById = r.approvedById := by
  simp only [actSurv]
  split_ifs
  · cases b.startDate <;> cases b.completionDate <;> cases b.remarks <;>
      cases b.appUserId <;> rfl
  · rfl

theorem actSurv_approvedAt : (actSurv c b r).approvedAt = r.approvedAt := by
  simp only [actSurv]
  split_ifs
  · cases b.startDate <;> cases b.completionDate <;> cases b.remarks <;>
      cases b.appUserId <;> rfl
  · rfl

theorem actRev_approvedById : (actRev c b now r).approvedById =
    (if isReviewerRole c.role ∧ b.approvedById.isSome
     then effOpt b.approvedById r.approvedById else r.approvedById) := by
  simp only [actRev]
  by_cases hg : isReviewerRole c.role = true <;>
    cases b.approvedById <;> cases b.isBlocked <;> cases b.remarks <;>
      cases b.rejectedRemarks <;> simp_all [effOpt]

theorem actRev_approvedAt : (actRev c b now r).approvedAt =
    (if isReviewerRole c.role ∧ b.approvedById.isSome
     then (if (effOpt b.approvedById r.approvedById).isSome then some now else none)
     else r.approvedAt) := by
  simp only [actRev]
  by_cases hg : isReviewerRole c.role = true <;>
    cases b.approvedById <;> cases b.isBlocked <;> cases b.remarks <;>
      cases b.rejectedRemarks <;> simp_all [effOpt]

theorem actRev_isBlocked : (actRev c b now r).isBlocked =
    (if isReviewerRole c.role then b.isBlocked.getD r.isBlocked
     else r.isBlocked) := by
  simp only [actRev]
  split_ifs with hg
  · cases b.approvedById <;> cases hv : b.isBlocked <;> cases b.remarks <;>
      cases b.rejectedRemarks <;> simp_all
  · simp_all

theorem actRev_remarks : (actRev c b now r).remarks =
    (if isReviewerRole c.role ∧ b.remarks.isSome
     then effOpt b.remarks r.remarks else r.remarks) := by
  simp only [actRev]
  by_cases hg : isReviewerRole c.role = true <;>
    cases b.approvedById <;> cases b.isBlocked <;> cases b.remarks <;>
      cases b.rejectedRemarks <;> simp_all [effOpt]

theorem actRev_rejectedRemarks : (actRev c b now r).rejectedRemarks =
    (if isReviewerRole c.role
     then effOpt b.rejectedRemarks r.rejectedRemarks
     else r.rejectedRemarks) := by
  simp only [actRev]
  split_ifs with hg
  · cases b.approvedById <;> cases b.isBlocked <;> cases b.remarks <;>
      cases hv : b.rejectedRemarks <;> simp_all [effOpt]
  · simp_all

theorem actRev_houseId : (actRev c b now r).houseId = r.houseId := by
  simp only [actRev]
  split_ifs
  · cases b.approvedById <;> cases b.isBlocked <;> cases b.remarks <;>
      cases b.rejectedRemarks <;> rfl
  · rfl

theorem actRev_status : (actRev c b now r).status = r.status := by
  simp only [actRev]
  split_ifs
  · cases b.approvedById <;> cases b.isBlocked <;> cases b.remarks <;>
      cases b.rejectedRemarks <;> rfl
  · rfl

theorem actRev_startDate : (actRev c b now r).startDate = r.startDate := by
  simp only [actRev]
  split_ifs
  · cases b.approvedById <;> cases b.isBlocked <;> cases b.remarks <;>
      cases b.rejectedRemarks <;> rfl
  · rfl

theorem actRev_completionDate :
    (actRev c b now r).completionDate = r.completionDate := by
  simp only [actRev]
  split_ifs
  · cases b.approvedById <;> cases b.isBlocked <;> cases b.remarks <;>
      cases b.rejectedRemarks <;> rfl
  · rfl

theorem actRev_appUserId : (actRev c b now r).appUserId = r.appUserId := by
  simp only [actRev]
  split_ifs
  · cases b.approvedById <;> cases b.isBlocked <;> cases b.remarks <;>
      cases b.rejectedRemarks <;> rfl
  · rfl


/-! ## Characterisation of the final update set and the written row -/

theorem anyIte {c : Prop} [Decidable c] (l1 l2 : List α) (p : α → Bool) :
    (if c then l1 else l2).any p = if c then l1.any p else l2.any p := by
  split <;> rfl

theorem actApplyBase_houseId : (actApplyBase a c b now).houseId = a.houseId := by
  simp only [actApplyBase, actRev_houseId, actSurv_houseId, actSide_houseId]

theorem actApplyBase_status : (actApplyBase a c b now).status = a.status := by
  simp only [actApplyBase, actRev_status, actSurv_status, actSide_status]

theorem actApplyBase_isBlocked : (actApplyBase a c b now).isBlocked =
    (if isReviewerRole c.role then b.isBlocked.getD a.isBlocked
     else a.isBlocked) := by
  simp only [actApplyBase, actRev_isBlocked, actSurv_isBlocked, actSide_isBlocked]

theorem actApplyBase_rejectedRemarks : (actApplyBase a c b now).rejectedRemarks =
    (if isReviewerRole c.role
     then effOpt b.rejectedRemarks a.rejectedRemarks
     else a.rejectedRemarks) := by
  simp only [actApplyBase, actRev_rejectedRemarks, actSurv_rejectedRemarks,
    actSide_rejectedRemarks]

theorem actApplyBase_approvedById : (actApplyBase a c b now).approvedById =
    (if isReviewerRole c.role ∧ b.approvedById.isSome
     then effOpt b.approvedById a.approvedById else a.approvedById) := by
  simp only [actApplyBase, actRev_approvedById, actSurv_approvedById,
    actSide_approvedById]

theorem actApplyBase_approvedAt : (actApplyBase a c b now).approvedAt =
    (if isReviewerRole c.role ∧ b.approvedById.isSome
     then (if (effOpt b.approvedById a.approvedById).isSome then some now else none)
     else a.approvedAt) := by
  simp only [actApplyBase, actRev_approvedAt, actSurv_approvedById,
    actSurv_approvedAt, actSide_approvedById, actSide_approvedAt]

theorem actApplyBase_appUserId : (actApplyBase a c b now).appUserId =
    (if survGate c b ∧ b.appUserId.isSome
     then effOpt b.appUserId a.appUserId else a.appUserId) := by
  simp only [actApplyBase, actRev_appUserId, actSurv_appUserId,
    actSide_appUserId]

theorem actApplyBase_remarks : (actApplyBase a c b now).remarks =
    (if isReviewerRole c.role ∧ b.remarks.isSome
     then effOpt b.remarks a.remarks
     else if survGate c b ∧ b.remarks.isSome
     then effOpt b.remarks a.remarks
     else a.remarks) := by
  simp only [actApplyBase, actRev_remarks, actSurv_remarks, actSide_remarks]
  cases hv : b.remarks <;> simp_all [effOpt]

theorem actApplyBase_startDate : (actApplyBase a c b now).startDate =
    (if survGate c b ∧ b.startDate.isSome
     then effOpt b.startDate a.startDate
     else if sideStartCond a b then some now else a.startDate) := by
  simp only [actApplyBase, actRev_startDate, actSurv_startDate,
    actSide_startDate]
  by_cases hg : survGate c b = true <;> cases hv : b.startDate <;>
    simp_all [effOpt]

theorem actApplyBase_completionDate : (actApplyBase a c b now).completionDate =
    (if survGate c b ∧ b.completionDate.isSome
     then effOpt b.completionDate a.completionDate
     else if sideCompletionCond a b then some now else a.completionDate) := by
  simp only [actApplyBase, actRev_completionDate, actSurv_completionDate,
    actSide_completionDate]
  by_cases hg : survGate c b = true <;> cases hv : b.completionDate <;>
    simp_all [effOpt]



theorem actCols_mentionsStatus (a : Activity) (c : Caller) (b : ActBody) :
    (actCols a c b).any Col.mentionsStatus =
      (isReviewerRole c.role && b.status.isSome) := by
  cases hbs : b.status <;> by_cases hr : isReviewerRole c.role = true <;>
    simp_all [actCols, List.any_append, anyIte, Col.mentionsStatus]

theorem actFinalCols_some (a : Activity) (c : Caller) (b : ActBody)
    (st : ActStatus) : actFinalCols a c b (some st) = actCols a c b := by
  simp [actFinalCols]

theorem actFinalCols_ne_nil (a : Activity) (c : Caller) (b : ActBody)
    (est : Option ActStatus) (h : actCols a c b ≠ []) :
    actFinalCols a c b est ≠ [] := by
  simp only [actFinalCols]
  split
  · simp
  · exact h

theorem actNewRow_status_none (a : Activity) (c : Caller) (b : ActBody)
    (now : Nat) : (actNewRow a c b now none).status = derivedStatus a b := by
  unfold actNewRow
  by_cases hany : (actFinalCols a c b none).any Col.mentionsStatus = true
  · rw [if_pos hany]
    simp [actNewStatus]
  · rw [if_neg hany, actApplyBase_status]
    by_contra hne
    apply hany
    unfold actFinalCols
    by_cases hhas : (actCols a c b).any Col.mentionsStatus = true
    · simp [hhas]
    · have hd : derivedStatus a b ≠ a.status := fun h => hne h.symm
      simp [hhas, hd, List.any_append, Col.mentionsStatus]

theorem actNewRow_status_some (a : Activity) (c : Caller) (b : ActBody)
    (now : Nat) (st : ActStatus) (hr : isReviewerRole c.role = true)
    (hb : b.status.isSome = true) :
    (actNewRow a c b now (some st)).status = st := by
  have hc : (actCols a c b).any Col.mentionsStatus = true := by
    rw [actCols_mentionsStatus]; simp [hr, hb]
  simp [actNewRow, actNewStatus, actFinalCols, hc]

theorem actNewRow_houseId : (actNewRow a c b now est).houseId =
    (actApplyBase a c b now).houseId := by
  simp only [actNewRow]; split <;> rfl

theorem actNewRow_startDate : (actNewRow a c b now est).startDate =
    (actApplyBase a c b now).startDate := by
  simp only [actNewRow]; split <;> rfl

theorem actNewRow_completionDate : (actNewRow a c b now est).completionDate =
    (actApplyBase a c b now).completionDate := by
  simp only [actNewRow]; split <;> rfl

theorem actNewRow_isBlocked : (actNewRow a c b now est).isBlocked =
    (actApplyBase a c b now).isBlocked := by
  simp only [actNewRow]; split <;> rfl

theorem actNewRow_rejectedRemarks : (actNewRow a c b now est).rejectedRemarks =
    (actApplyBase a c b now).rejectedRemarks := by
  simp only [actNewRow]; split <;> rfl

theorem actNewRow_approvedById : (actNewRow a c b now est).approvedById =
    (actApplyBase a c b now).approvedById := by
  simp only [actNewRow]; split <;> rfl

theorem actNewRow_approvedAt : (actNewRow a c b now est).approvedAt =
    (actApplyBase a c b now).approvedAt := by
  simp only [actNewRow]; split <;> rfl

theorem actNewRow_appUserId : (actNewRow a c b now est).appUserId =
    (actApplyBase a c b now).appUserId := by
  simp only [actNewRow]; split <;> rfl

theorem actNewRow_remarks : (actNewRow a c b now est).remarks =
    (actApplyBase a c b now).remarks := by
  simp only [actNewRow]; split <;> rfl

/-! ## Rollup lemmas -/

theorem lookupRow_setRow_setRow_self {l : List (Nat × α)} {k : Nat} {x : α}
    (v w : α) (h : lookupRow l k = some x) :
    lookupRow (setRow (setRow l k v) k w) k = some w :=
  lookupRow_setRow_self w (lookupRow_setRow_self v h)

theorem activityRollup_activities (db : DB) (hid : Nat) :
    (activityRollup db hid).activities = db.activities := by
  unfold activityRollup
  split
  · rfl
  · dsimp only
    repeat' split
    all_goals rfl

theorem activityRollup_templates (db : DB) (hid : Nat) :
    (activityRollup db hid).templates = db.templates := by
  unfold activityRollup
  split
  · rfl
  · dsimp only
    repeat' split
    all_goals rfl

theorem activityRollup_house {db : DB} {hid : Nat} {h : House}
    (hh : lookupRow db.houses hid = some h) :
    lookupRow (activityRollup db hid).houses hid = some
      { h with completedActivities := rollupCompleted db hid,
               progress := rollupProgress db hid h,
               status := rollupNewHouseStatus db hid h } := by
  unfold activityRollup
  rw [hh]
  dsimp only
  by_cases hne : rollupNewHouseStatus db hid h ≠ h.status
  · rw [if_pos hne]
    have hl := lookupRow_setRow_setRow_self
      (l := db.houses) (k := hid)
      ({ h with completedActivities := rollupCompleted db hid,
                progress := rollupProgress db hid h })
      ({ h with completedActivities := rollupCompleted db hid,
                progress := rollupProgress db hid h,
                status := rollupNewHouseStatus db hid h }) hh
    repeat' split
    all_goals simpa [incHousesCompleted, decHousesCompleted] using hl
  · rw [if_neg hne]
    rw [not_ne_iff] at hne
    have hl := lookupRow_setRow_self
      (l := db.houses) (k := hid)
      ({ h with completedActivities := rollupCompleted db hid,
                progress := rollupProgress db hid h }) hh
    rw [hne]
    exact hl

theorem activityRollup_project_inc {db : DB} {hid : Nat} {h : House}
    {pid : Nat} (hh : lookupRow db.houses hid = some h)
    (hp : h.projectId = some pid)
    (hns : rollupNewHouseStatus db hid h = .completed)
    (hprev : h.status ≠ .completed) :
    (activityRollup db hid).projects = (mapRow db.projects pid
      (fun pr => { pr with housesCompleted := pr.housesCompleted + 1 })) := by
  have hne : rollupNewHouseStatus db hid h ≠ h.status := by
    rw [hns]; exact fun he => hprev he.symm
  unfold activityRollup
  rw [hh]
  dsimp only
  rw [if_pos hne, hp]
  dsimp only
  rw [if_pos ⟨hns, hprev⟩]
  rfl

theorem activityRollup_project_dec {db : DB} {hid : Nat} {h : House}
    {pid : Nat} (hh : lookupRow db.houses hid = some h)
    (hp : h.projectId = some pid)
    (hns : rollupNewHouseStatus db hid h ≠ .completed)
    (hprev : h.status = .completed) :
    (activityRollup db hid).projects = (mapRow db.projects pid
      (fun pr => { pr with housesCompleted := max (pr.housesCompleted - 1) 0 })) := by
  have hne : rollupNewHouseStatus db hid h ≠ h.status := by
    rw [hprev]; exact hns
  unfold activityRollup
  rw [hh]
  dsimp only
  rw [if_pos hne, hp]
  dsimp only
  rw [if_neg (fun hc => hns hc.1), if_pos ⟨hns, hprev⟩]
  rfl


/-! ## Claim counterexamples -/

def c1Db : DB := { activities := [(1, { houseId := 10 })] }

/-- C1 (counterexample): a surveyor's payload `{isBlocked: true}` (no explicit
status) makes the stored status `blocked` while `is_blocked` remains `false`:
recomputing the §4.1 precedence from the stored fields yields `pending`, not
the stored `blocked`. -/
theorem C1_counterexample :
    updateHouseActivity c1Db 1 ⟨2, .surveyor⟩ { isBlocked := some true } 100 =
      (.ok, { activities := [(1, { houseId := 10, status := .blocked })] }) ∧
    deriveStatus false none none none none = .pending := by decide

def c3Db : DB := { activities := [(1, { houseId := 10, appUserId := some 1 })] }

/-- C3 (counterexample): a surveyor who is not the assigned user (caller 2,
activity assigned to user 1) sets `remarks`; the request succeeds (200) and
the row changes — it is not rejected as forbidden. -/
theorem C3_counterexample :
    updateHouseActivity c3Db 1 ⟨2, .surveyor⟩ { remarks := some (some "x") } 100 =
      (.ok, { activities := [(1, { houseId := 10,
                                   appUserId := some 1,
                                   remarks := some "x" })] }) ∧
    (updateHouseActivity c3Db 1 ⟨2, .surveyor⟩
        { remarks := some (some "x") } 100).1 ≠ .forbidden := by decide

def c4Db : DB := { activities := [(1, { houseId := 10 })] }

/-- C4 (counterexample): setting only `completionDate` derives status
`review`, yet `startDate` is not set to now — the side effect keys on the raw
request `status` field, not on the resulting status. -/
theorem C4_counterexample :
    updateHouseActivity c4Db 1 ⟨2, .surveyor⟩
        { completionDate := some (some 5) } 100 =
      (.ok, { activities := [(1, { houseId := 10,
                                   status := .review,
                                   completionDate := some 5 })] }) := by decide

def c6Db : DB :=
  { houses := [(10, { projectId := some 20,
                      status := .completed,
                      completedActivities := 2,
                      totalActivities := 2,
                      name := some "h" })],
    projects := [(20, { housesCompleted := 1 }), (21, { housesCompleted := 0 })] }

/-- C6 (counterexample): reassigning an already-completed house (stored
counters 2/2, genuinely completed) from project 20 to project 21 performs
no adjustment at all: the request dies with 500 at the `UPDATE` (the
`progress = ?` fragment is a PostgreSQL syntax error through `pool.query`)
and both projects, and the house itself, are left exactly as before —
contradicting "the old project is decremented and the new project
incremented within the same operation". -/
theorem C6_counterexample :
    updateHouse c6Db 10 ⟨1, .admin⟩ { projectId := some (some 21) } =
      (.serverError, c6Db) ∧
    lookupRow c6Db.projects 20 = some { housesCompleted := 1 } ∧
    lookupRow c6Db.projects 21 = some { housesCompleted := 0 } ∧
    (lookupRow c6Db.houses 10).map House.status = some .completed ∧
    (lookupRow c6Db.houses 10).map House.projectId = some (some 20) ∧
    (lookupRow c6Db.houses 10).map House.completedActivities = some 2 ∧
    (lookupRow c6Db.houses 10).map House.totalActivities = some 2 := by
  decide

def c7Db : DB :=
  { activities := [(1, { houseId := 10,
                         startDate := some 1,
                         approvedById := some 7,
                         status := .in_progress })],
    houses := [(10, { projectId := some 20, totalActivities := 1 })],
    projects := [(20, { housesCompleted := 0 })] }

/-- C7 (counterexample): when the rollup's COUNT query fails after the
activity `UPDATE`, the handler reports a server error but the activity row
keeps its new `completed` status — prior state is not left untouched, there
is no enclosing transaction. -/
theorem C7_counterexample :
    updateHouseActivityRollupFails c7Db 1 ⟨2, .surveyor⟩
        { completionDate := some (some 5) } 100 =
      (.serverError,
        { activities := [(1, { houseId := 10,
                               startDate := some 1,
                               completionDate := some 5,
                               approvedById := some 7,
                               status := .completed })],
          houses := [(10, { projectId := some 20, totalActivities := 1 })],
          projects := [(20, { housesCompleted := 0 })] }) ∧
    (updateHouseActivityRollupFails c7Db 1 ⟨2, .surveyor⟩
        { completionDate := some (some 5) } 100).2 ≠ c7Db := by decide

def c8Db : DB :=
  { activities := [(1, { houseId := 10, approvedById := some 7 })],
    houses := [(10, { projectId := some 20, totalActivities := 1 })],
    projects := [(20, { housesCompleted := 0 })] }

def c8Db1 : DB :=
  { activities := [(1, { houseId := 10,
                         completionDate := some 100,
                         approvedById := some 7 })],
    houses := [(10, { projectId := some 20, totalActivities := 1 })],
    projects := [(20, { housesCompleted := 0 })] }

/-- C8 (counterexample): the same surveyor payload `{status: "completed"}`
applied twice is not idempotent: the first application only fires the
`completion_date = NOW()` side effect (counters untouched), the second
derives `completed` from the now-set completion date and increments the
house and project counters. -/
theorem C8_counterexample :
    updateHouseActivity c8Db 1 ⟨2, .surveyor⟩ { status := some "completed" } 100 =
      (.ok, c8Db1) ∧
    (updateHouseActivity c8Db1 1 ⟨2, .surveyor⟩
        { status := some "completed" } 101).1 = .ok ∧
    lookupRow (updateHouseActivity c8Db1 1 ⟨2, .surveyor⟩
        { status := some "completed" } 101).2.projects 20 =
      some { housesCompleted := 1 } ∧
    (lookupRow (updateHouseActivity c8Db1 1 ⟨2, .surveyor⟩
        { status := some "completed" } 101).2.houses 10).map
      House.completedActivities = some 1 ∧
    lookupRow c8Db1.projects 20 = some { housesCompleted := 0 } ∧
    (lookupRow c8Db1.houses 10).map House.completedActivities = some 0 := by
  decide


/-! ## Handler decomposition lemmas -/

theorem actUpdateRun_notFound {db : DB} {aid : Nat} (f : Bool) (c : Caller)
    (b : ActBody) (now : Nat) (ha : lookupRow db.activities aid = none) :
    actUpdateRun f db aid c b now = (.notFound, db) := by
  unfold actUpdateRun; rw [ha]

theorem actUpdateRun_none {db : DB} {aid : Nat} {a : Activity} (f : Bool)
    (c : Caller) (b : ActBody) (now : Nat)
    (ha : lookupRow db.activities aid = some a) (hbs : b.status = none) :
    actUpdateRun f db aid c b now = actUpdateCore db aid a c b now none f := by
  unfold actUpdateRun; rw [ha]; dsimp only; rw [hbs]

theorem actUpdateRun_nonrev {db : DB} {aid : Nat} {a : Activity} {s : String}
    (f : Bool) (c : Caller) (b : ActBody) (now : Nat)
    (ha : lookupRow db.activities aid = some a) (hbs : b.status = some s)
    (hrev : isReviewerRole c.role = false) :
    actUpdateRun f db aid c b now = actUpdateCore db aid a c b now none f := by
  unfold actUpdateRun; rw [ha]; dsimp only; rw [hbs]; dsimp only
  rw [if_neg (by simp [hrev])]

theorem actUpdateRun_rev_invalid {db : DB} {aid : Nat} {a : Activity}
    {s : String} (f : Bool) (c : Caller) (b : ActBody) (now : Nat)
    (ha : lookupRow db.activities aid = some a) (hbs : b.status = some s)
    (hrev : isReviewerRole c.role = true) (hps : parseActStatus s = none) :
    actUpdateRun f db aid c b now = (.badRequest, db) := by
  unfold actUpdateRun; rw [ha]; dsimp only; rw [hbs]; dsimp only
  rw [if_pos hrev, hps]

theorem actUpdateRun_rev_valid {db : DB} {aid : Nat} {a : Activity}
    {s : String} {st : ActStatus} (f : Bool) (c : Caller) (b : ActBody)
    (now : Nat) (ha : lookupRow db.activities aid = some a)
    (hbs : b.status = some s) (hrev : isReviewerRole c.role = true)
    (hps : parseActStatus s = some st) :
    actUpdateRun f db aid c b now =
      actUpdateCore db aid a c b now (some st) f := by
  unfold actUpdateRun; rw [ha]; dsimp only; rw [hbs]; dsimp only
  rw [if_pos hrev, hps]

theorem actUpdateCore_empty {db : DB} {aid : Nat} {a : Activity} {c : Caller}
    {b : ActBody} {now : Nat} {est : Option ActStatus} (f : Bool)
    (h : actFinalCols a c b est = []) :
    actUpdateCore db aid a c b now est f = (.badRequest, db) := by
  unfold actUpdateCore
  rw [if_pos (by simp [h])]

theorem actUpdateCore_fst_ok {db : DB} {aid : Nat} {a : Activity} {c : Caller}
    {b : ActBody} {now : Nat} {est : Option ActStatus}
    (h : actFinalCols a c b est ≠ []) :
    (actUpdateCore db aid a c b now est false).1 = .ok := by
  unfold actUpdateCore
  rw [if_neg (by simp [h])]
  dsimp only
  split_ifs with h1 h2
  · exact absurd h2 (by simp)
  · rfl
  · rfl

theorem actUpdateCore_activity {db : DB} {aid : Nat} {a : Activity}
    {c : Caller} {b : ActBody} {now : Nat} {est : Option ActStatus} (f : Bool)
    (hne : actFinalCols a c b est ≠ [])
    (ha : lookupRow db.activities aid = some a) :
    lookupRow (actUpdateCore db aid a c b now est f).2.activities aid =
      some (actNewRow a c b now est) := by
  unfold actUpdateCore
  rw [if_neg (by simp [hne])]
  dsimp only
  split_ifs with h1 h2
  · dsimp only
    exact lookupRow_setRow_self _ ha
  · dsimp only
    rw [activityRollup_activities]
    exact lookupRow_setRow_self _ ha
  · dsimp only
    exact lookupRow_setRow_self _ ha

theorem actUpdateCore_nocross {db : DB} {aid : Nat} {a : Activity}
    {c : Caller} {b : ActBody} {now : Nat} {est : Option ActStatus} (f : Bool)
    (hnc : ¬((a.status ≠ .completed ∧ actNewStatus a b est = .completed) ∨
             (a.status = .completed ∧ actNewStatus a b est ≠ .completed))) :
    (actUpdateCore db aid a c b now est f).2.houses = db.houses ∧
    (actUpdateCore db aid a c b now est f).2.projects = db.projects := by
  unfold actUpdateCore
  dsimp only
  by_cases h0 : (actFinalCols a c b est).isEmpty = true
  · rw [if_pos h0]; exact ⟨rfl, rfl⟩
  · rw [if_neg h0, if_neg hnc]
    exact ⟨rfl, rfl⟩

theorem actUpdateCore_cross_ok {db : DB} {aid : Nat} {a : Activity}
    {c : Caller} {b : ActBody} {now : Nat} {est : Option ActStatus}
    (hne : actFinalCols a c b est ≠ [])
    (hcross : (a.status ≠ .completed ∧ actNewStatus a b est = .completed) ∨
              (a.status = .completed ∧ actNewStatus a b est ≠ .completed)) :
    actUpdateCore db aid a c b now est false =
      (.ok, activityRollup { db with activities := (setRow db.activities aid
        (actNewRow a c b now est)) } a.houseId) := by
  unfold actUpdateCore
  dsimp only
  rw [if_neg (by simp [hne]), if_pos hcross, if_neg (by simp)]

theorem actUpdateCore_cross_fail {db : DB} {aid : Nat} {a : Activity}
    {c : Caller} {b : ActBody} {now : Nat} {est : Option ActStatus}
    (hne : actFinalCols a c b est ≠ [])
    (hcross : (a.status ≠ .completed ∧ actNewStatus a b est = .completed) ∨
              (a.status = .completed ∧ actNewStatus a b est ≠ .completed)) :
    actUpdateCore db aid a c b now est true =
      (.serverError, { db with activities := (setRow db.activities aid
        (actNewRow a c b now est)) }) := by
  unfold actUpdateCore
  dsimp only
  rw [if_neg (by simp [hne]), if_pos hcross, if_pos rfl]


/-! ## Claims C1–C5 -/

/-- C2: for a reviewer/admin caller supplying an explicit `status` on an
existing activity, an invalid value is rejected with a client error and the
store is unchanged; a valid value is stored verbatim as the new status, for
every request body and stored row — the derivation steps 1–6 are bypassed. -/
theorem C2_reviewer_status_override (db : DB) (aid : Nat) (c : Caller)
    (b : ActBody) (now : Nat) (s : String) (a : Activity)
    (hrev : isReviewerRole c.role = true) (hbs : b.status = some s)
    (ha : lookupRow db.activities aid = some a) :
    (parseActStatus s = none →
      updateHouseActivity db aid c b now = (.badRequest, db)) ∧
    (∀ st, parseActStatus s = some st →
      (updateHouseActivity db aid c b now).1 = .ok ∧
      (lookupRow (updateHouseActivity db aid c b now).2.activities aid).map
        Activity.status = some st) := by
  constructor
  · intro hps
    exact actUpdateRun_rev_invalid false c b now ha hbs hrev hps
  · intro st hps
    have hbs' : b.status.isSome = true := by rw [hbs]; rfl
    have hcols : actCols a c b ≠ [] := by
      intro hnil
      have h := actCols_mentionsStatus a c b
      rw [hnil] at h
      simp [hrev, hbs'] at h
    have hfc := actFinalCols_ne_nil a c b (some st) hcols
    have hrun := actUpdateRun_rev_valid false c b now ha hbs hrev hps
    unfold updateHouseActivity
    rw [hrun]
    refine ⟨actUpdateCore_fst_ok hfc, ?_⟩
    rw [actUpdateCore_activity false hfc ha, Option.map_some',
      actNewRow_status_some a c b now st hrev hbs']

/-- C2 witness: a reviewer setting `status = "blocked"` on a pending
activity. -/
theorem C2_reviewer_status_override_witness :
    (updateHouseActivity { activities := [(1, { houseId := 10 })] } 1
       ⟨9, .reviewer⟩ { status := some "blocked" } 5).1 = .ok ∧
    (lookupRow (updateHouseActivity { activities := [(1, { houseId := 10 })] }
       1 ⟨9, .reviewer⟩ { status := some "blocked" } 5).2.activities 1).map
      Activity.status = some .blocked :=
  (C2_reviewer_status_override _ 1 ⟨9, .reviewer⟩ _ 5 "blocked"
    { houseId := 10 } (by decide) rfl (by decide)).2 .blocked (by decide)

/-- C1 (amended): after a successful update the stored status is in the
closed six-value enum, and recomputing the §4.1 precedence from the stored
fields yields exactly the stored status, provided the update supplied no
explicit `status` field and supplied no derivation-relevant field outside
the caller's writable set (surveyor: `isBlocked`, `rejectedRemarks`,
`approvedById` absent and the `appUserId` gate passes or no date fields;
reviewer/admin: `startDate`, `completionDate` absent). The original claim
(any update without an explicit reviewer status) fails:
`C1_counterexample`. -/
theorem C1_amended_invariant (db db' : DB) (aid : Nat) (c : Caller)
    (b : ActBody) (now : Nat) (a' : Activity)
    (hbs : b.status = none)
    (hsur : isSurveyorRole c.role = true →
      b.isBlocked = none ∧ b.rejectedRemarks = none ∧ b.approvedById = none ∧
      (survGate c b = true ∨ (b.startDate = none ∧ b.completionDate = none)))
    (hrev : isReviewerRole c.role = true →
      b.startDate = none ∧ b.completionDate = none)
    (hres : updateHouseActivity db aid c b now = (.ok, db'))
    (ha' : lookupRow db'.activities aid = some a') :
    a'.status ∈ [ActStatus.pending, .in_progress, .review, .completed,
      .blocked, .rejected] ∧
    deriveStatus a'.isBlocked a'.rejectedRemarks a'.completionDate
      a'.approvedById a'.startDate = a'.status := by
  refine ⟨by cases a'.status <;> simp, ?_⟩
  cases hl : lookupRow db.activities aid with
  | none =>
    rw [updateHouseActivity, actUpdateRun_notFound false c b now hl] at hres
    exact absurd (congrArg Prod.fst hres) (by simp)
  | some a =>
    rw [updateHouseActivity, actUpdateRun_none false c b now hl hbs] at hres
    by_cases hempty : actFinalCols a c b none = []
    · rw [actUpdateCore_empty false hempty] at hres
      exact absurd (congrArg Prod.fst hres) (by simp)
    · have hact := @actUpdateCore_activity db aid a c b now none
        false hempty hl
      rw [congrArg Prod.snd hres] at hact
      rw [hact] at ha'
      injection ha' with heq
      subst heq
      have hside1 : sideStartCond a b = false := by
        simp [sideStartCond, hbs]
      have hside2 : sideCompletionCond a b = false := by
        simp [sideCompletionCond, hbs]
      have hB : (actNewRow a c b now none).isBlocked =
          b.isBlocked.getD a.isBlocked := by
        rw [actNewRow_isBlocked, actApplyBase_isBlocked]
        cases hcr : c.role
        · have hib := (hsur (by simp [isSurveyorRole, hcr])).1
          simp [isReviewerRole, hcr, hib]
        · simp [isReviewerRole, hcr]
        · simp [isReviewerRole, hcr]
      have hRR : (actNewRow a c b now none).rejectedRemarks =
          effOpt b.rejectedRemarks a.rejectedRemarks := by
        rw [actNewRow_rejectedRemarks, actApplyBase_rejectedRemarks]
        cases hcr : c.role
        · have hrr := (hsur (by simp [isSurveyorRole, hcr])).2.1
          simp [isReviewerRole, hcr, hrr, effOpt]
        · simp [isReviewerRole, hcr]
        · simp [isReviewerRole, hcr]
      have hAB : (actNewRow a c b now none).approvedById =
          effOpt b.approvedById a.approvedById := by
        rw [actNewRow_approvedById, actApplyBase_approvedById]
        cases hcr : c.role
        · have hab := (hsur (by simp [isSurveyorRole, hcr])).2.2.1
          simp [isReviewerRole, hcr, hab, effOpt]
        · cases hv : b.approvedById <;>
            simp [isReviewerRole, hcr, hv, effOpt]
        · cases hv : b.approvedById <;>
            simp [isReviewerRole, hcr, hv, effOpt]
      have hSD : (actNewRow a c b now none).startDate =
          effOpt b.startDate a.startDate := by
        rw [actNewRow_startDate, actApplyBase_startDate]
        cases hcr : c.role
        · rcases hsur (by simp [isSurveyorRole, hcr]) with ⟨-, -, -, hg⟩
          rcases hg with hg | ⟨hsd, -⟩
          · cases hv : b.startDate <;> simp [hg, hv, hside1, effOpt]
          · simp [hsd, hside1, effOpt]
        · have hsd := (hrev (by simp [isReviewerRole, hcr])).1
          simp [hsd, hside1, effOpt]
        · have hsd := (hrev (by simp [isReviewerRole, hcr])).1
          simp [hsd, hside1, effOpt]
      have hCD : (actNewRow a c b now none).completionDate =
          effOpt b.completionDate a.completionDate := by
        rw [actNewRow_completionDate, actApplyBase_completionDate]
        cases hcr : c.role
        · rcases hsur (by simp [isSurveyorRole, hcr]) with ⟨-, -, -, hg⟩
          rcases hg with hg | ⟨-, hcd⟩
          · cases hv : b.completionDate <;> simp [hg, hv, hside2, effOpt]
          · simp [hcd, hside2, effOpt]
        · have hcd := (hrev (by simp [isReviewerRole, hcr])).2
          simp [hcd, hside2, effOpt]
        · have hcd := (hrev (by simp [isReviewerRole, hcr])).2
          simp [hcd, hside2, effOpt]
      rw [hB, hRR, hAB, hSD, hCD, actNewRow_status_none, derivedStatus]

/-- C1 witness: a surveyor setting their own `startDate`; the stored row
re-derives to `in_progress`. -/
theorem C1_amended_invariant_witness :
    (Activity.mk 10 .in_progress (some 4) none false none none none none
        none).status ∈ [ActStatus.pending, .in_progress, .review, .completed,
      .blocked, .rejected] ∧
    deriveStatus (Activity.mk 10 .in_progress (some 4) none false none none
        none none none).isBlocked
      (Activity.mk 10 .in_progress (some 4) none false none none none none
        none).rejectedRemarks
      (Activity.mk 10 .in_progress (some 4) none false none none none none
        none).completionDate
      (Activity.mk 10 .in_progress (some 4) none false none none none none
        none).approvedById
      (Activity.mk 10 .in_progress (some 4) none false none none none none
        none).startDate =
    (Activity.mk 10 .in_progress (some 4) none false none none none none
        none).status :=
  C1_amended_invariant { activities := [(1, { houseId := 10 })] }
    { activities := [(1, { houseId := 10, status := .in_progress,
                           startDate := some 4 })] }
    1 ⟨2, .surveyor⟩ { startDate := some (some 4) } 99
    (Activity.mk 10 .in_progress (some 4) none false none none none none none)
    rfl
    (fun _ => ⟨rfl, rfl, rfl, Or.inl (by decide)⟩)
    (fun h => absurd h (by decide))
    (by decide) (by decide)

/-- C3 (amended): a surveyor's update can only mutate `startDate`,
`completionDate`, `remarks`, `appUserId` (and the derived status /
`NOW()` side effects): `houseId`, `isBlocked`, `rejectedRemarks`,
`approvedById` and `approvedAt` are unchanged, and `appUserId` is either
unchanged or set to the caller's own id. The ownership half of the original
claim fails — there is no check against the stored assignee
(`C3_counterexample`). And when the incoming `appUserId` names a different
user (the gate fails) the request is NOT rejected: the surveyor's four
field fragments are skipped, `remarks` and `appUserId` stay unchanged, but
the status-keyed `NOW()` side effects still apply to the dates and the
stored status still becomes the derived one, so the request can succeed
(200) and mutate the row. -/
theorem C3_amended_surveyor_fields (db db' : DB) (aid : Nat) (c : Caller)
    (b : ActBody) (now : Nat) (a a' : Activity)
    (hs : isSurveyorRole c.role = true)
    (hres : updateHouseActivity db aid c b now = (.ok, db'))
    (ha : lookupRow db.activities aid = some a)
    (ha' : lookupRow db'.activities aid = some a') :
    a'.houseId = a.houseId ∧ a'.isBlocked = a.isBlocked ∧
    a'.rejectedRemarks = a.rejectedRemarks ∧
    a'.approvedById = a.approvedById ∧ a'.approvedAt = a.approvedAt ∧
    (a'.appUserId = a.appUserId ∨ a'.appUserId = some c.id) ∧
    (survGate c b = false →
      a'.remarks = a.remarks ∧ a'.appUserId = a.appUserId ∧
      a'.startDate = (if sideStartCond a b then some now else a.startDate) ∧
      a'.completionDate =
        (if sideCompletionCond a b then some now else a.completionDate) ∧
      a'.status = derivedStatus a b) := by
  have hrole : c.role = .surveyor := by
    cases hcr : c.role <;> simp_all [isSurveyorRole]
  have hrevF : isReviewerRole c.role = false := by
    simp [isReviewerRole, hrole]
  have hrun : updateHouseActivity db aid c b now =
      actUpdateCore db aid a c b now none false := by
    cases hbs : b.status with
    | none => exact actUpdateRun_none false c b now ha hbs
    | some s => exact actUpdateRun_nonrev false c b now ha hbs hrevF
  rw [hrun] at hres
  by_cases hempty : actFinalCols a c b none = []
  · rw [actUpdateCore_empty false hempty] at hres
    exact absurd (congrArg Prod.fst hres) (by simp)
  · have hact := @actUpdateCore_activity db aid a c b now none
      false hempty ha
    rw [congrArg Prod.snd hres] at hact
    rw [hact] at ha'
    injection ha' with heq
    subst heq
    refine ⟨?_, ?_, ?_, ?_, ?_, ?_, ?_⟩
    · rw [actNewRow_houseId, actApplyBase_houseId]
    · rw [actNewRow_isBlocked, actApplyBase_isBlocked]
      simp [hrevF]
    · rw [actNewRow_rejectedRemarks, actApplyBase_rejectedRemarks]
      simp [hrevF]
    · rw [actNewRow_approvedById, actApplyBase_approvedById]
      simp [hrevF]
    · rw [actNewRow_approvedAt, actApplyBase_approvedAt]
      simp [hrevF]
    · rw [actNewRow_appUserId, actApplyBase_appUserId]
      by_cases hg : survGate c b = true ∧ b.appUserId.isSome = true
      · right
        rw [if_pos hg]
        rcases hg with ⟨hg, hsome⟩
        simp only [survGate, hs, Bool.true_and, Bool.or_eq_true,
          decide_eq_true_eq] at hg
        rcases hg with hg | hg
        · rw [hg]; rfl
        · rw [hg] at hsome; simp at hsome
      · left
        rw [if_neg hg]
    · intro hg
      refine ⟨?_, ?_, ?_, ?_, ?_⟩
      · rw [actNewRow_remarks, actApplyBase_remarks]
        simp [hrevF, hg]
      · rw [actNewRow_appUserId, actApplyBase_appUserId]
        simp [hg]
      · rw [actNewRow_startDate, actApplyBase_startDate]
        simp [hg]
      · rw [actNewRow_completionDate, actApplyBase_completionDate]
        simp [hg]
      · exact actNewRow_status_none a c b now

theorem updateHouseActivity_ok_row {db db' : DB} {aid : Nat} {c : Caller}
    {b : ActBody} {now : Nat} {a a' : Activity}
    (hres : updateHouseActivity db aid c b now = (.ok, db'))
    (ha : lookupRow db.activities aid = some a)
    (ha' : lookupRow db'.activities aid = some a') :
    ∃ est, a' = actNewRow a c b now est := by
  have finish : ∀ est, updateHouseActivity db aid c b now =
      actUpdateCore db aid a c b now est false →
      ∃ est, a' = actNewRow a c b now est := by
    intro est hrun
    rw [hrun] at hres
    by_cases hempty : actFinalCols a c b est = []
    · rw [actUpdateCore_empty false hempty] at hres
      exact absurd (congrArg Prod.fst hres) (by simp)
    · have hact := @actUpdateCore_activity db aid a c b now est
        false hempty ha
      rw [congrArg Prod.snd hres] at hact
      rw [hact] at ha'
      injection ha' with heq
      exact ⟨est, heq.symm⟩
  cases hbs : b.status with
  | none => exact finish none (actUpdateRun_none false c b now ha hbs)
  | some s =>
    by_cases hr : isReviewerRole c.role = true
    · cases hps : parseActStatus s with
      | none =>
        rw [updateHouseActivity,
          actUpdateRun_rev_invalid false c b now ha hbs hr hps] at hres
        exact absurd (congrArg Prod.fst hres) (by simp)
      | some st =>
        exact finish (some st) (actUpdateRun_rev_valid false c b now ha hbs hr hps)
    · have hrF : isReviewerRole c.role = false := by
        revert hr; cases isReviewerRole c.role <;> simp
      exact finish none (actUpdateRun_nonrev false c b now ha hbs hrF)

/-- C4 (amended): the `NOW()` side effects key on the raw request `status`
string only. If the activity had no startDate and the request's explicit
status is pending/review (and the request does not itself set startDate),
startDate becomes now; likewise completionDate for explicit "completed".
They never fire when the date already exists, and never fire from the
derived status alone (`C4_counterexample`). -/
theorem C4_amended_side_effects (db db' : DB) (aid : Nat) (c : Caller)
    (b : ActBody) (now : Nat) (a a' : Activity)
    (hres : updateHouseActivity db aid c b now = (.ok, db'))
    (ha : lookupRow db.activities aid = some a)
    (ha' : lookupRow db'.activities aid = some a') :
    (a.startDate = none →
      (b.status = some "pending" ∨ b.status = some "review") →
      b.startDate = none → a'.startDate = some now) ∧
    (a.completionDate = none → b.status = some "completed" →
      b.completionDate = none → a'.completionDate = some now) ∧
    (a.startDate.isSome → b.startDate = none → a'.startDate = a.startDate) ∧
    (a.completionDate.isSome → b.completionDate = none →
      a'.completionDate = a.completionDate) ∧
    (b.startDate = none → b.status ≠ some "pending" →
      b.status ≠ some "review" → a'.startDate = a.startDate) ∧
    (b.completionDate = none → b.status ≠ some "completed" →
      a'.completionDate = a.completionDate) := by
  obtain ⟨est, heq⟩ := updateHouseActivity_ok_row hres ha ha'
  subst heq
  rw [actNewRow_startDate, actNewRow_completionDate, actApplyBase_startDate,
    actApplyBase_completionDate]
  refine ⟨?_, ?_, ?_, ?_, ?_, ?_⟩
  · intro h1 h2 h3
    rcases h2 with h2 | h2 <;> simp [h3, sideStartCond, h1, h2]
  · intro h1 h2 h3
    simp [h3, sideCompletionCond, h1, h2]
  · intro h1 h2
    simp [h2, sideStartCond]
    intro hcontra
    rw [hcontra] at h1
    simp at h1
  · intro h1 h2
    simp [h2, sideCompletionCond]
    intro hcontra
    rw [hcontra] at h1
    simp at h1
  · intro h1 h2 h3
    simp [h1, sideStartCond, h2, h3]
  · intro h1 h2
    simp [h1, sideCompletionCond, h2]

/-- C3 witness: surveyor 2 sends `{appUserId: 1, status: "review"}` for an
activity assigned to user 1 — the gate fails, yet the request succeeds and
mutates `startDate` and (derivation) the status, while every protected
column and the surveyor fields stay unchanged. -/
theorem C3_amended_surveyor_fields_witness :
    (Activity.mk 10 .pending (some 100) none false none none none (some 1)
        none).houseId =
      (Activity.mk 10 .pending none none false none none none (some 1)
        none).houseId ∧
    (Activity.mk 10 .pending (some 100) none false none none none (some 1)
        none).isBlocked =
      (Activity.mk 10 .pending none none false none none none (some 1)
        none).isBlocked ∧
    (Activity.mk 10 .pending (some 100) none false none none none (some 1)
        none).rejectedRemarks =
      (Activity.mk 10 .pending none none false none none none (some 1)
        none).rejectedRemarks ∧
    (Activity.mk 10 .pending (some 100) none false none none none (some 1)
        none).approvedById =
      (Activity.mk 10 .pending none none false none none none (some 1)
        none).approvedById ∧
    (Activity.mk 10 .pending (some 100) none false none none none (some 1)
        none).approvedAt =
      (Activity.mk 10 .pending none none false none none none (some 1)
        none).approvedAt ∧
    ((Activity.mk 10 .pending (some 100) none false none none none (some 1)
        none).appUserId =
      (Activity.mk 10 .pending none none false none none none (some 1)
        none).appUserId ∨
     (Activity.mk 10 .pending (some 100) none false none none none (some 1)
        none).appUserId = some (Caller.mk 2 .surveyor).id) ∧
    (survGate (Caller.mk 2 .surveyor)
        { appUserId := some (some 1), status := some "review" } = false →
      (Activity.mk 10 .pending (some 100) none false none none none (some 1)
          none).remarks =
        (Activity.mk 10 .pending none none false none none none (some 1)
          none).remarks ∧
      (Activity.mk 10 .pending (some 100) none false none none none (some 1)
          none).appUserId =
        (Activity.mk 10 .pending none none false none none none (some 1)
          none).appUserId ∧
      (Activity.mk 10 .pending (some 100) none false none none none (some 1)
          none).startDate =
        (if sideStartCond
            (Activity.mk 10 .pending none none false none none none (some 1)
              none)
            { appUserId := some (some 1), status := some "review" }
         then some 100
         else (Activity.mk 10 .pending none none false none none none
            (some 1) none).startDate) ∧
      (Activity.mk 10 .pending (some 100) none false none none none (some 1)
          none).completionDate =
        (if sideCompletionCond
            (Activity.mk 10 .pending none none false none none none (some 1)
              none)
            { appUserId := some (some 1), status := some "review" }
         then some 100
         else (Activity.mk 10 .pending none none false none none none
            (some 1) none).completionDate) ∧
      (Activity.mk 10 .pending (some 100) none false none none none (some 1)
          none).status =
        derivedStatus
          (Activity.mk 10 .pending none none false none none none (some 1)
            none)
          { appUserId := some (some 1), status := some "review" }) :=
  C3_amended_surveyor_fields
    { activities := [(1, { houseId := 10, appUserId := some 1 })] }
    { activities := [(1, { houseId := 10, startDate := some 100,
                           appUserId := some 1 })] }
    1 ⟨2, .surveyor⟩ { appUserId := some (some 1), status := some "review" }
    100
    (Activity.mk 10 .pending none none false none none none (some 1) none)
    (Activity.mk 10 .pending (some 100) none false none none none (some 1)
      none)
    (by decide) (by decide) (by decide) (by decide)

/-- C4 witness: a surveyor sending `{status: "review"}` on a dateless
activity gets `startDate = now` while everything else is untouched. -/
theorem C4_amended_side_effects_witness :
    ((Activity.mk 10 .pending none none false none none none none
        none).startDate = none →
      (({ status := some "review" } : ActBody).status = some "pending" ∨
       ({ status := some "review" } : ActBody).status = some "review") →
      ({ status := some "review" } : ActBody).startDate = none →
      (Activity.mk 10 .pending (some 7) none false none none none none
        none).startDate = some 7) ∧
    ((Activity.mk 10 .pending none none false none none none none
        none).completionDate = none →
      ({ status := some "review" } : ActBody).status = some "completed" →
      ({ status := some "review" } : ActBody).completionDate = none →
      (Activity.mk 10 .pending (some 7) none false none none none none
        none).completionDate = some 7) ∧
    ((Activity.mk 10 .pending none none false none none none none
        none).startDate.isSome →
      ({ status := some "review" } : ActBody).startDate = none →
      (Activity.mk 10 .pending (some 7) none false none none none none
        none).startDate =
      (Activity.mk 10 .pending none none false none none none none
        none).startDate) ∧
    ((Activity.mk 10 .pending none none false none none none none
        none).completionDate.isSome →
      ({ status := some "review" } : ActBody).completionDate = none →
      (Activity.mk 10 .pending (some 7) none false none none none none
        none).completionDate =
      (Activity.mk 10 .pending none none false none none none none
        none).completionDate) ∧
    (({ status := some "review" } : ActBody).startDate = none →
      ({ status := some "review" } : ActBody).status ≠ some "pending" →
      ({ status := some "review" } : ActBody).status ≠ some "review" →
      (Activity.mk 10 .pending (some 7) none false none none none none
        none).startDate =
      (Activity.mk 10 .pending none none false none none none none
        none).startDate) ∧
    (({ status := some "review" } : ActBody).completionDate = none →
      ({ status := some "review" } : ActBody).status ≠ some "completed" →
      (Activity.mk 10 .pending (some 7) none false none none none none
        none).completionDate =
      (Activity.mk 10 .pending none none false none none none none
        none).completionDate) :=
  C4_amended_side_effects { activities := [(1, { houseId := 10 })] }
    { activities := [(1, { houseId := 10, startDate := some 7 })] }
    1 ⟨2, .surveyor⟩ { status := some "review" } 7
    (Activity.mk 10 .pending none none false none none none none none)
    (Activity.mk 10 .pending (some 7) none false none none none none none)
    (by decide) (by decide) (by decide)

theorem updateHouseActivity_ok_core {db db' : DB} {aid : Nat} {c : Caller}
    {b : ActBody} {now : Nat} {a : Activity}
    (hres : updateHouseActivity db aid c b now = (.ok, db'))
    (ha : lookupRow db.activities aid = some a) :
    ∃ est, actFinalCols a c b est ≠ [] ∧
      actUpdateCore db aid a c b now est false = (.ok, db') ∧
      (est = none ∨ (isReviewerRole c.role = true ∧ b.status.isSome = true)) := by
  have finish : ∀ est, updateHouseActivity db aid c b now =
      actUpdateCore db aid a c b now est false →
      (est = none ∨ (isReviewerRole c.role = true ∧ b.status.isSome = true)) →
      ∃ est, actFinalCols a c b est ≠ [] ∧
        actUpdateCore db aid a c b now est false = (.ok, db') ∧
        (est = none ∨ (isReviewerRole c.role = true ∧ b.status.isSome = true)) := by
    intro est hrun hP
    rw [hrun] at hres
    by_cases hempty : actFinalCols a c b est = []
    · rw [actUpdateCore_empty false hempty] at hres
      exact absurd (congrArg Prod.fst hres) (by simp)
    · exact ⟨est, hempty, hres, hP⟩
  by_cases hbn : b.status = none
  · exact finish none (actUpdateRun_none false c b now ha hbn) (Or.inl rfl)
  · obtain ⟨s, hbs⟩ : ∃ s, b.status = some s := by
      cases hv : b.status with
      | none => exact absurd hv hbn
      | some s => exact ⟨s, rfl⟩
    by_cases hr : isReviewerRole c.role = true
    · cases hps : parseActStatus s with
      | none =>
        rw [updateHouseActivity,
          actUpdateRun_rev_invalid false c b now ha hbs hr hps] at hres
        exact absurd (congrArg Prod.fst hres) (by simp)
      | some st =>
        exact finish (some st)
          (actUpdateRun_rev_valid false c b now ha hbs hr hps)
          (Or.inr ⟨hr, by rw [hbs]; rfl⟩)
    · have hrF : isReviewerRole c.role = false := by
        revert hr; cases isReviewerRole c.role <;> simp
      exact finish none (actUpdateRun_nonrev false c b now ha hbs hrF)
        (Or.inl rfl)

/-- C5: after an activity update whose stored status crosses into or out of
`completed`, the owning house satisfies: `completedActivities` equals the
recount over the post-update store, `totalActivities` is unchanged,
`progress = completed/total*100` when `total > 0` and `0` otherwise, and the
house status follows the flip rule (completed exactly when the recount
equals a positive total, regression from completed goes to `in_progress`,
never `delayed`/`pending`). -/
theorem C5_house_rollup (db db' : DB) (aid : Nat) (c : Caller) (b : ActBody)
    (now : Nat) (a a' : Activity) (h h' : House)
    (hres : updateHouseActivity db aid c b now = (.ok, db'))
    (ha : lookupRow db.activities aid = some a)
    (ha' : lookupRow db'.activities aid = some a')
    (hcross : (a.status ≠ .completed ∧ a'.status = .completed) ∨
              (a.status = .completed ∧ a'.status ≠ .completed))
    (hh : lookupRow db.houses a.houseId = some h)
    (hh' : lookupRow db'.houses a.houseId = some h') :
    h'.completedActivities = (countCompleted db' a.houseId : Int) ∧
    h'.totalActivities = h.totalActivities ∧
    (0 < h'.totalActivities →
      h'.progress = (h'.completedActivities : ℚ) / (h'.totalActivities : ℚ) * 100) ∧
    (h'.totalActivities ≤ 0 → h'.progress = 0) ∧
    h'.status = (if h'.completedActivities = h'.totalActivities ∧
        0 < h'.totalActivities then .completed
      else if h'.completedActivities < h'.totalActivities ∧
        h.status = .completed then .in_progress
      else h.status) := by
  obtain ⟨est, hne, hcore, hestP⟩ := updateHouseActivity_ok_core hres ha
  have hact := @actUpdateCore_activity db aid a c b now est
    false hne ha
  rw [congrArg Prod.snd hcore] at hact
  rw [hact] at ha'
  injection ha' with heq
  subst heq
  have hstat : (actNewRow a c b now est).status = actNewStatus a b est := by
    cases est with
    | none => rw [actNewRow_status_none]; rfl
    | some st =>
      rcases hestP with hcontra | ⟨hr, hbs⟩
      · exact absurd hcontra (by simp)
      · rw [actNewRow_status_some a c b now st hr hbs]; rfl
  rw [hstat] at hcross
  have hdb' := @actUpdateCore_cross_ok db aid a c b now est hne hcross
  rw [hcore] at hdb'
  injection hdb' with hfst hsnd
  subst hsnd
  have hh1 : lookupRow ({ db with activities := (setRow db.activities aid
      (actNewRow a c b now est)) } : DB).houses a.houseId = some h := hh
  have hhr := activityRollup_house hh1
  rw [hhr] at hh'
  injection hh' with heqh
  subst heqh
  have hcount : countCompleted (activityRollup { db with activities :=
      (setRow db.activities aid (actNewRow a c b now est)) } a.houseId)
      a.houseId = countCompleted { db with activities := (setRow db.activities
      aid (actNewRow a c b now est)) } a.houseId := by
    unfold countCompleted
    rw [activityRollup_activities]
  refine ⟨?_, rfl, ?_, ?_, ?_⟩
  · dsimp only
    rw [hcount]
    rfl
  · intro hpos
    dsimp only at hpos ⊢
    unfold rollupProgress
    rw [if_pos hpos]
  · intro hle
    dsimp only at hle ⊢
    unfold rollupProgress
    rw [if_neg (by omega)]
  · dsimp only
    unfold rollupNewHouseStatus
    set d := rollupCompleted { db with activities := (setRow db.activities
      aid (actNewRow a c b now est)) } a.houseId with hd
    have hc0 : 0 ≤ d := by
      rw [hd]
      unfold rollupCompleted
      exact Int.natCast_nonneg _
    by_cases h1 : d = h.totalActivities ∧ d ≠ 0
    · rw [if_pos h1, if_pos ⟨h1.1, by omega⟩]
    · have h2 : ¬(d = h.totalActivities ∧ 0 < h.totalActivities) :=
        fun hp => h1 ⟨hp.1, by omega⟩
      rw [if_neg h1, if_neg h2]

def c5Db : DB :=
  { activities := [(1, { houseId := 10, status := .in_progress,
                         startDate := some 1 })],
    houses := [(10, { totalActivities := 0 })] }

def c5Db' : DB :=
  { activities := [(1, Activity.mk 10 .completed (some 1) none false none
      (some 9) (some 50) none none)],
    houses := [(10, House.mk none .in_progress 0 1 0 none none none none
      none none)] }

/-- C5 witness: completing the only activity of a house whose
`totalActivities` is 0 (boundary: progress stays 0, status unchanged). -/
theorem C5_house_rollup_witness :
    (House.mk none .in_progress 0 1 0 none none none none none
        none).completedActivities = (countCompleted c5Db' 10 : Int) ∧
    (House.mk none .in_progress 0 1 0 none none none none none
        none).totalActivities =
      (House.mk none .in_progress 0 0 0 none none none none none
        none).totalActivities ∧
    (0 < (House.mk none .in_progress 0 1 0 none none none none none
        none).totalActivities →
      (House.mk none .in_progress 0 1 0 none none none none none
        none).progress =
      ((House.mk none .in_progress 0 1 0 none none none none none
        none).completedActivities : ℚ) /
      ((House.mk none .in_progress 0 1 0 none none none none none
        none).totalActivities : ℚ) * 100) ∧
    ((House.mk none .in_progress 0 1 0 none none none none none
        none).totalActivities ≤ 0 →
      (House.mk none .in_progress 0 1 0 none none none none none
        none).progress = 0) ∧
    (House.mk none .in_progress 0 1 0 none none none none none
        none).status =
      (if (House.mk none .in_progress 0 1 0 none none none none none
            none).completedActivities =
          (House.mk none .in_progress 0 1 0 none none none none none
            none).totalActivities ∧
          0 < (House.mk none .in_progress 0 1 0 none none none none none
            none).totalActivities then .completed
       else if (House.mk none .in_progress 0 1 0 none none none none none
            none).completedActivities <
          (House.mk none .in_progress 0 1 0 none none none none none
            none).totalActivities ∧
          (House.mk none .in_progress 0 0 0 none none none none none
            none).status = .completed then .in_progress
       else (House.mk none .in_progress 0 0 0 none none none none none
         none).status) :=
  C5_house_rollup c5Db c5Db' 1 ⟨9, .reviewer⟩
    { completionDate := some (some 5), approvedById := some (some 9) } 50
    (Activity.mk 10 .in_progress (some 1) none false none none none none none)
    (Activity.mk 10 .completed (some 1) none false none (some 9) (some 50)
      none none)
    (House.mk none .in_progress 0 0 0 none none none none none none)
    (House.mk none .in_progress 0 1 0 none none none none none none)
    (by decide) (by decide) (by decide) (by decide) (by decide) (by decide)



/-- C6 (amended): project `housesCompleted` maintenance. Activity path:
when a successful activity update flips the house's effective status to
`completed` (respectively away from `completed`) and the house names an
existing project, that project's counter is incremented (resp. decremented
with a floor of 0, via `GREATEST(housesCompleted - 1, 0)`). House path:
`PUT /api/houses/:id` performs no writes at all — every request fails
before or at the `UPDATE` (the unconditional `progress = ?` fragment is a
PostgreSQL syntax error through `pool.query`), so direct house-status
transitions and the reassignment adjustment (old project decremented, new
project incremented) never happen. -/
theorem C6_amended_project_rollup :
    (∀ db aid c b now a h p pr,
      (updateHouseActivity db aid c b now).1 = .ok →
      lookupRow db.activities aid = some a →
      lookupRow db.houses a.houseId = some h →
      (lookupRow (updateHouseActivity db aid c b now).2.houses
        a.houseId).map House.status = some .completed →
      h.status ≠ .completed → h.projectId = some p →
      lookupRow db.projects p = some pr →
      lookupRow (updateHouseActivity db aid c b now).2.projects p =
        some { housesCompleted := pr.housesCompleted + 1 }) ∧
    (∀ db aid c b now a h h's p pr,
      (updateHouseActivity db aid c b now).1 = .ok →
      lookupRow db.activities aid = some a →
      lookupRow db.houses a.houseId = some h →
      (lookupRow (updateHouseActivity db aid c b now).2.houses
        a.houseId).map House.status = some h's →
      h's ≠ .completed → h.status = .completed → h.projectId = some p →
      lookupRow db.projects p = some pr →
      lookupRow (updateHouseActivity db aid c b now).2.projects p =
        some { housesCompleted := max (pr.housesCompleted - 1) 0 }) ∧
    (∀ db hid c b,
      (updateHouse db hid c b).2 = db ∧
      (updateHouse db hid c b).1 ≠ .ok) := by
  have actPath : ∀ db aid c b now a h, ∀ tgt : HouseStatus,
      (updateHouseActivity db aid c b now).1 = .ok →
      lookupRow db.activities aid = some a →
      lookupRow db.houses a.houseId = some h →
      (lookupRow (updateHouseActivity db aid c b now).2.houses
        a.houseId).map House.status = some tgt →
      tgt ≠ h.status →
      ∃ dbm, (updateHouseActivity db aid c b now).2 = activityRollup dbm a.houseId ∧
        dbm.houses = db.houses ∧ dbm.projects = db.projects ∧
        rollupNewHouseStatus dbm a.houseId h = tgt := by
    intro db aid c b now a h tgt h1 h2 h3 h4 h5
    have hres : updateHouseActivity db aid c b now =
        (.ok, (updateHouseActivity db aid c b now).2) := by
      rw [← h1]
    obtain ⟨est, hne, hcore, -⟩ := updateHouseActivity_ok_core hres h2
    by_cases hcross : (a.status ≠ .completed ∧ actNewStatus a b est = .completed) ∨
        (a.status = .completed ∧ actNewStatus a b est ≠ .completed)
    · have hdb' := @actUpdateCore_cross_ok db aid a c b now est hne hcross
      have hsnd := congrArg Prod.snd (hcore.symm.trans hdb')
      dsimp only at hsnd
      refine ⟨_, hsnd, rfl, rfl, ?_⟩
      have hh1 : lookupRow ({ db with activities := (setRow db.activities aid
          (actNewRow a c b now est)) } : DB).houses a.houseId = some h := h3
      have hhr := activityRollup_house hh1
      rw [hsnd] at h4
      rw [hhr] at h4
      simpa using h4
    · have hnc := @actUpdateCore_nocross db aid a c b now est false hcross
      rw [hcore] at hnc
      dsimp only at hnc
      have hhm : lookupRow (updateHouseActivity db aid c b now).2.houses
          a.houseId = some h := by
        rw [hnc.1]
        exact h3
      rw [hhm] at h4
      simp only [Option.map_some'] at h4
      injection h4 with h4
      exact absurd h4.symm h5
  refine ⟨?_, ?_, ?_⟩
  · intro db aid c b now a h p pr h1 h2 h3 h4 h5 h6 h7
    obtain ⟨dbm, heq, hhs, hps, hns⟩ := actPath db aid c b now a h .completed
      h1 h2 h3 h4 (fun he => h5 he.symm)
    have hh1 : lookupRow dbm.houses a.houseId = some h := by rw [hhs]; exact h3
    rw [heq, activityRollup_project_inc hh1 h6 hns h5, hps]
    rw [lookupRow_mapRow_self _ h7]
  · intro db aid c b now a h h's p pr h1 h2 h3 h4 h5 h6 h7 h8
    obtain ⟨dbm, heq, hhs, hps, hns⟩ := actPath db aid c b now a h h's
      h1 h2 h3 h4 (by rw [h6]; exact h5)
    have hh1 : lookupRow dbm.houses a.houseId = some h := by rw [hhs]; exact h3
    rw [heq, activityRollup_project_dec hh1 h7 (by rw [hns]; exact h5) h6, hps]
    rw [lookupRow_mapRow_self _ h8]
  · intro db hid c b
    unfold updateHouse
    repeat' split
    all_goals exact ⟨rfl, by simp⟩

def c6wDb : DB :=
  { activities := [(1, { houseId := 10, status := .in_progress,
                         startDate := some 1 })],
    houses := [(10, { projectId := some 20, totalActivities := 1 })],
    projects := [(20, { housesCompleted := 0 })] }

theorem C6_amended_project_rollup_witness :
    lookupRow (updateHouseActivity c6wDb 1 ⟨9, .reviewer⟩
      { completionDate := some (some 5), approvedById := some (some 9) }
      100).2.projects 20 = some { housesCompleted := 1 } :=
  C6_amended_project_rollup.1 c6wDb 1 ⟨9, .reviewer⟩
    { completionDate := some (some 5), approvedById := some (some 9) } 100
    (Activity.mk 10 .in_progress (some 1) none false none none none none none)
    (House.mk (some 20) .in_progress 0 0 1 none none none none none none)
    20 { housesCompleted := 0 }
    (by decide) (by decide) (by decide) (by decide) (by decide) (by decide)
    (by decide)

/-- C7 (amended): the activity-update handler runs its statements on the
bare pool with no `BEGIN`/`COMMIT`, so a mid-sequence failure leaves every
earlier statement committed. Modelled at the rollup's first statement (the
completed-`COUNT` query, `updateHouseActivityRollupFails`): when it fails
after the activity `UPDATE` has committed, nothing is rolled back — the
houses and projects tables keep their pre-request contents while the
activities table keeps exactly the state the successful run would have
written — a partially applied update, contrary to the claimed
all-or-nothing transaction. -/
theorem C7_amended_no_transaction (db : DB) (aid : Nat) (c : Caller)
    (b : ActBody) (now : Nat) :
    (updateHouseActivityRollupFails db aid c b now).2.houses = db.houses ∧
    (updateHouseActivityRollupFails db aid c b now).2.projects = db.projects ∧
    (updateHouseActivityRollupFails db aid c b now).2.activities =
      (updateHouseActivity db aid c b now).2.activities := by
  have key : ∀ a est,
      (actUpdateCore db aid a c b now est true).2.houses = db.houses ∧
      (actUpdateCore db aid a c b now est true).2.projects = db.projects ∧
      (actUpdateCore db aid a c b now est true).2.activities =
        (actUpdateCore db aid a c b now est false).2.activities := by
    intro a est
    unfold actUpdateCore
    dsimp only
    by_cases hempty : (actFinalCols a c b est).isEmpty = true
    · rw [if_pos hempty, if_pos hempty]
      exact ⟨rfl, rfl, rfl⟩
    · rw [if_neg hempty, if_neg hempty]
      by_cases hcross : (a.status ≠ .completed ∧
          actNewStatus a b est = .completed) ∨
          (a.status = .completed ∧ actNewStatus a b est ≠ .completed)
      · rw [if_pos hcross, if_pos hcross, if_pos rfl, if_neg (by simp)]
        refine ⟨rfl, rfl, ?_⟩
        dsimp only
        exact (activityRollup_activities { db with activities :=
          (setRow db.activities aid (actNewRow a c b now est)) }
          a.houseId).symm
      · rw [if_neg hcross, if_neg hcross]
        exact ⟨rfl, rfl, rfl⟩
  unfold updateHouseActivityRollupFails updateHouseActivity actUpdateRun
  cases hl : lookupRow db.activities aid with
  | none => exact ⟨rfl, rfl, rfl⟩
  | some a =>
    dsimp only
    cases hbs : b.status with
    | none => exact key a none
    | some s =>
      dsimp only
      by_cases hr : isReviewerRole c.role = true
      · rw [if_pos hr, if_pos hr]
        cases hps : parseActStatus s with
        | none => exact ⟨rfl, rfl, rfl⟩
        | some st => exact key a (some st)
      · rw [if_neg hr, if_neg hr]
        exact key a none

theorem derivedStatus_actNewRow {a : Activity} {c : Caller} {b : ActBody}
    {now : Nat} (est : Option ActStatus) (hbs : b.status = none) :
    derivedStatus (actNewRow a c b now est) b = derivedStatus a b := by
  have hside1 : sideStartCond a b = false := by simp [sideStartCond, hbs]
  have hside2 : sideCompletionCond a b = false := by simp [sideCompletionCond, hbs]
  unfold derivedStatus
  have e1 : b.isBlocked.getD (actNewRow a c b now est).isBlocked =
      b.isBlocked.getD a.isBlocked := by
    cases hib : b.isBlocked
    · rw [actNewRow_isBlocked, actApplyBase_isBlocked]
      simp only [hib, Option.getD_none]
      split_ifs <;> rfl
    · simp
  have e2 : effOpt b.rejectedRemarks (actNewRow a c b now est).rejectedRemarks =
      effOpt b.rejectedRemarks a.rejectedRemarks := by
    cases hrr : b.rejectedRemarks
    · simp only [effOpt]
      rw [actNewRow_rejectedRemarks, actApplyBase_rejectedRemarks]
      split_ifs <;> simp [hrr, effOpt]
    · simp [effOpt]
  have e3 : effOpt b.completionDate (actNewRow a c b now est).completionDate =
      effOpt b.completionDate a.completionDate := by
    cases hcd : b.completionDate
    · simp only [effOpt]
      rw [actNewRow_completionDate, actApplyBase_completionDate]
      simp [hcd, hside2]
    · simp [effOpt]
  have e4 : effOpt b.approvedById (actNewRow a c b now est).approvedById =
      effOpt b.approvedById a.approvedById := by
    cases hab : b.approvedById
    · simp only [effOpt]
      rw [actNewRow_approvedById, actApplyBase_approvedById]
      simp [hab, effOpt]
    · simp [effOpt]
  have e5 : effOpt b.startDate (actNewRow a c b now est).startDate =
      effOpt b.startDate a.startDate := by
    cases hsd : b.startDate
    · simp only [effOpt]
      rw [actNewRow_startDate, actApplyBase_startDate]
      simp [hsd, hside1]
    · simp [effOpt]
  rw [e1, e2, e3, e4, e5]

/-- C8 (amended): applying the same activity-update request twice leaves
`housesCompleted` / `completedActivities` counters (the houses and
projects tables) exactly as after the first application, provided the
request either carries no explicit `status` field or comes from a
reviewer/admin. (A surveyor payload with an explicit `status` string is
not covered: its ignored `status` still drives the NOW() side effects, so
the second run can derive a different status and fire the rollup again.) -/
theorem C8_amended_counter_idempotence (db : DB) (aid : Nat) (c : Caller)
    (b : ActBody) (now now2 : Nat)
    (h : b.status = none ∨ isReviewerRole c.role = true) :
    (updateHouseActivity (updateHouseActivity db aid c b now).2 aid c b
      now2).2.houses = (updateHouseActivity db aid c b now).2.houses ∧
    (updateHouseActivity (updateHouseActivity db aid c b now).2 aid c b
      now2).2.projects = (updateHouseActivity db aid c b now).2.projects := by
  cases hl : lookupRow db.activities aid with
  | none =>
    have h1 : updateHouseActivity db aid c b now = (.notFound, db) :=
      @actUpdateRun_notFound db aid false c b now hl
    have h2 : updateHouseActivity db aid c b now2 = (.notFound, db) :=
      @actUpdateRun_notFound db aid false c b now2 hl
    rw [h1]
    dsimp only
    rw [h2]
    exact ⟨rfl, rfl⟩
  | some a =>
    have main : ∀ est : Option ActStatus,
        (∀ d a0, lookupRow d.activities aid = some a0 → ∀ nn,
          updateHouseActivity d aid c b nn =
            actUpdateCore d aid a0 c b nn est false) →
        (est = none → b.status = none) →
        (∀ st, est = some st →
          isReviewerRole c.role = true ∧ b.status.isSome = true) →
        (updateHouseActivity (updateHouseActivity db aid c b now).2 aid c b
          now2).2.houses = (updateHouseActivity db aid c b now).2.houses ∧
        (updateHouseActivity (updateHouseActivity db aid c b now).2 aid c b
          now2).2.projects = (updateHouseActivity db aid c b now).2.projects := by
      intro est hdecomp hbsP hrevP
      have hrun1 := hdecomp db a hl now
      by_cases hempty : actFinalCols a c b est = []
      · have h1 : updateHouseActivity db aid c b now = (.badRequest, db) := by
          rw [hrun1]
          exact actUpdateCore_empty false hempty
        have h2 : updateHouseActivity db aid c b now2 = (.badRequest, db) := by
          rw [hdecomp db a hl now2]
          exact actUpdateCore_empty false hempty
        rw [h1]
        dsimp only
        rw [h2]
        exact ⟨rfl, rfl⟩
      · have hD1 : (updateHouseActivity db aid c b now).2 =
            (actUpdateCore db aid a c b now est false).2 :=
          congrArg Prod.snd hrun1
        have ha2 : lookupRow (updateHouseActivity db aid c b
            now).2.activities aid = some (actNewRow a c b now est) := by
          rw [hD1]
          exact actUpdateCore_activity false hempty hl
        have hrun2 := hdecomp _ _ ha2 now2
        have hst : (actNewRow a c b now est).status = actNewStatus a b est := by
          cases est with
          | none => rw [actNewRow_status_none]; rfl
          | some st =>
            obtain ⟨hr, hbsome⟩ := hrevP st rfl
            rw [actNewRow_status_some a c b now st hr hbsome]
            rfl
        have hns2 : actNewStatus (actNewRow a c b now est) b est =
            actNewStatus a b est := by
          cases est with
          | none =>
            simp only [actNewStatus, Option.getD_none]
            exact derivedStatus_actNewRow none (hbsP rfl)
          | some st => rfl
        have hnc : ¬(((actNewRow a c b now est).status ≠ .completed ∧
            actNewStatus (actNewRow a c b now est) b est = .completed) ∨
            ((actNewRow a c b now est).status = .completed ∧
            actNewStatus (actNewRow a c b now est) b est ≠ .completed)) := by
          rw [hst, hns2]
          rintro (⟨hne, heq⟩ | ⟨heq, hne⟩) <;> exact hne heq
        have hnoc := @actUpdateCore_nocross
          (updateHouseActivity db aid c b now).2 aid
          (actNewRow a c b now est) c b now2 est false hnc
        rw [hrun2]
        exact hnoc
    rcases h with hbn | hrev
    · exact main none
        (fun d a0 ha0 nn => actUpdateRun_none false c b nn ha0 hbn)
        (fun _ => hbn) (fun st hst => by simp at hst)
    · by_cases hbn : b.status = none
      · exact main none
          (fun d a0 ha0 nn => actUpdateRun_none false c b nn ha0 hbn)
          (fun _ => hbn) (fun st hst => by simp at hst)
      · obtain ⟨s, hbs⟩ : ∃ s, b.status = some s := by
          cases hv : b.status with
          | none => exact absurd hv hbn
          | some s => exact ⟨s, rfl⟩
        cases hps : parseActStatus s with
        | none =>
          have h1 : updateHouseActivity db aid c b now = (.badRequest, db) :=
            actUpdateRun_rev_invalid false c b now hl hbs hrev hps
          have h2 : updateHouseActivity db aid c b now2 = (.badRequest, db) :=
            actUpdateRun_rev_invalid false c b now2 hl hbs hrev hps
          rw [h1]
          dsimp only
          rw [h2]
          exact ⟨rfl, rfl⟩
        | some st =>
          exact main (some st)
            (fun d a0 ha0 nn =>
              actUpdateRun_rev_valid false c b nn ha0 hbs hrev hps)
            (fun hco => by simp at hco)
            (fun st' hst' => ⟨hrev, by rw [hbs]; rfl⟩)

theorem C8_amended_counter_idempotence_witness :
    (({ remarks := some (some "w") } : ActBody).status = none ∨
      isReviewerRole (Caller.mk 2 .surveyor).role = true) ∧
    ((updateHouseActivity (updateHouseActivity c8Db 1 ⟨2, .surveyor⟩
        { remarks := some (some "w") } 5).2 1 ⟨2, .surveyor⟩
        { remarks := some (some "w") } 9).2.houses =
      (updateHouseActivity c8Db 1 ⟨2, .surveyor⟩
        { remarks := some (some "w") } 5).2.houses ∧
     (updateHouseActivity (updateHouseActivity c8Db 1 ⟨2, .surveyor⟩
        { remarks := some (some "w") } 5).2 1 ⟨2, .surveyor⟩
        { remarks := some (some "w") } 9).2.projects =
      (updateHouseActivity c8Db 1 ⟨2, .surveyor⟩
        { remarks := some (some "w") } 5).2.projects) :=
  ⟨Or.inl rfl,
    C8_amended_counter_idempotence c8Db 1 ⟨2, .surveyor⟩
      { remarks := some (some "w") } 5 9 (Or.inl rfl)⟩


theorem lookupRow_append_fresh {l : List (Nat × α)} {k : Nat} (x : α)
    (h : lookupRow l k = none) : lookupRow (l ++ [(k, x)]) k = some x := by
  induction l with
  | nil => simp [lookupRow]
  | cons p t ih =>
    rw [List.cons_append, lookupRow_cons] at *
    by_cases hk : p.1 = k
    · rw [if_pos hk] at h; simp at h
    · rw [if_neg hk] at h ⊢
      exact ih h

/-- C9: `POST /api/houses` with n > 0 active templates creates exactly n
pending house-activities for the new house and leaves the house row with
`totalActivities = n` and `completedActivities = 0`; with no active
template the request fails with a client error (400, or 403 for a bad
role) and the store — in particular the houses table — is unchanged: the
house insert is undone by the surrounding `ROLLBACK`. -/
theorem C9_create_house_templates (db : DB) (c : Caller)
    (b : CreateHouseBody) (nh ab : Nat)
    (hfresh : lookupRow db.houses nh = none) :
    ((createHouse db c b nh ab).1 = .ok →
      (db.templates.filter (fun p => p.2.isActive)).length ≠ 0 ∧
      (createHouse db c b nh ab).2.activities = db.activities ++
        (List.range
            (db.templates.filter (fun p => p.2.isActive)).length).map
          (fun i => (ab + i,
            ({ houseId := nh, status := .pending } : Activity))) ∧
      (lookupRow (createHouse db c b nh ab).2.houses nh).map
          House.totalActivities =
        some ((db.templates.filter (fun p => p.2.isActive)).length : Int) ∧
      (lookupRow (createHouse db c b nh ab).2.houses nh).map
          House.completedActivities = some 0) ∧
    (db.templates.filter (fun p => p.2.isActive) = [] →
      ((createHouse db c b nh ab).1 = .badRequest ∨
        (createHouse db c b nh ab).1 = .forbidden) ∧
      (createHouse db c b nh ab).2 = db) := by
  constructor
  · intro hok
    obtain ⟨r, d, hres⟩ : ∃ r d, createHouse db c b nh ab = (r, d) :=
      ⟨_, _, rfl⟩
    rw [hres] at hok ⊢
    dsimp only at hok ⊢
    subst hok
    unfold createHouse at hres
    dsimp only at hres
    split at hres
    · exact absurd (congrArg Prod.fst hres) (by simp)
    · split at hres
      · split at hres
        · exact absurd (congrArg Prod.fst hres) (by simp)
        · split at hres
          · exact absurd (congrArg Prod.fst hres) (by simp)
          · split at hres
            · exact absurd (congrArg Prod.fst hres) (by simp)
            · split at hres
              · exact absurd (congrArg Prod.fst hres) (by simp)
              · rename_i hne
                have hd := ((Prod.mk.injEq _ _ _ _).mp hres).2.symm
                refine ⟨?_, ?_, ?_⟩
                · intro h0
                  rw [List.length_eq_zero] at h0
                  rw [h0] at hne
                  exact hne rfl
                · rw [hd]
                  split
                  · split <;> rfl
                  · rfl
                · constructor
                  · rw [hd]
                    split
                    · split
                      · dsimp only [incHousesCompleted]
                        rw [lookupRow_setRow_self _
                          (lookupRow_append_fresh _ hfresh)]
                        rfl
                      · dsimp only [incHousesCompleted]
                        rw [lookupRow_setRow_self _
                          (lookupRow_append_fresh _ hfresh)]
                        rfl
                    · dsimp only [incHousesCompleted]
                      rw [lookupRow_setRow_self _
                        (lookupRow_append_fresh _ hfresh)]
                      rfl
                  · rw [hd]
                    split
                    · split
                      · dsimp only [incHousesCompleted]
                        rw [lookupRow_setRow_self _
                          (lookupRow_append_fresh _ hfresh)]
                        rfl
                      · dsimp only [incHousesCompleted]
                        rw [lookupRow_setRow_self _
                          (lookupRow_append_fresh _ hfresh)]
                        rfl
                    · dsimp only [incHousesCompleted]
                      rw [lookupRow_setRow_self _
                        (lookupRow_append_fresh _ hfresh)]
                      rfl
      · split at hres
        · exact absurd (congrArg Prod.fst hres) (by simp)
        · split at hres
          · exact absurd (congrArg Prod.fst hres) (by simp)
          · split at hres
            · exact absurd (congrArg Prod.fst hres) (by simp)
            · split at hres
              · exact absurd (congrArg Prod.fst hres) (by simp)
              · rename_i hne
                have hd := ((Prod.mk.injEq _ _ _ _).mp hres).2.symm
                refine ⟨?_, ?_, ?_⟩
                · intro h0
                  rw [List.length_eq_zero] at h0
                  rw [h0] at hne
                  exact hne rfl
                · rw [hd]
                  split
                  · split <;> rfl
                  · rfl
                · constructor
                  · rw [hd]
                    split
                    · split
                      · dsimp only [incHousesCompleted]
                        rw [lookupRow_setRow_self _
                          (lookupRow_append_fresh _ hfresh)]
                        rfl
                      · dsimp only [incHousesCompleted]
                        rw [lookupRow_setRow_self _
                          (lookupRow_append_fresh _ hfresh)]
                        rfl
                    · dsimp only [incHousesCompleted]
                      rw [lookupRow_setRow_self _
                        (lookupRow_append_fresh _ hfresh)]
                      rfl
                  · rw [hd]
                    split
                    · split
                      · dsimp only [incHousesCompleted]
                        rw [lookupRow_setRow_self _
                          (lookupRow_append_fresh _ hfresh)]
                        rfl
                      · dsimp only [incHousesCompleted]
                        rw [lookupRow_setRow_self _
                          (lookupRow_append_fresh _ hfresh)]
                        rfl
                    · dsimp only [incHousesCompleted]
                      rw [lookupRow_setRow_self _
                        (lookupRow_append_fresh _ hfresh)]
                      rfl
  · intro hemp
    obtain ⟨r, d, hres⟩ : ∃ r d, createHouse db c b nh ab = (r, d) :=
      ⟨_, _, rfl⟩
    rw [hres]
    dsimp only
    unfold createHouse at hres
    dsimp only at hres
    split at hres
    · obtain ⟨h1, h2⟩ := (Prod.mk.injEq _ _ _ _).mp hres
      exact ⟨Or.inr h1.symm, h2.symm⟩
    · split at hres
      · split at hres
        · obtain ⟨h1, h2⟩ := (Prod.mk.injEq _ _ _ _).mp hres
          exact ⟨Or.inl h1.symm, h2.symm⟩
        · split at hres
          · obtain ⟨h1, h2⟩ := (Prod.mk.injEq _ _ _ _).mp hres
            exact ⟨Or.inl h1.symm, h2.symm⟩
          · split at hres
            · obtain ⟨h1, h2⟩ := (Prod.mk.injEq _ _ _ _).mp hres
              exact ⟨Or.inl h1.symm, h2.symm⟩
            · split at hres
              · obtain ⟨h1, h2⟩ := (Prod.mk.injEq _ _ _ _).mp hres
                exact ⟨Or.inl h1.symm, h2.symm⟩
              · rename_i hne
                exact absurd (by rw [hemp]; rfl) hne
      · split at hres
        · obtain ⟨h1, h2⟩ := (Prod.mk.injEq _ _ _ _).mp hres
          exact ⟨Or.inl h1.symm, h2.symm⟩
        · split at hres
          · obtain ⟨h1, h2⟩ := (Prod.mk.injEq _ _ _ _).mp hres
            exact ⟨Or.inl h1.symm, h2.symm⟩
          · split at hres
            · obtain ⟨h1, h2⟩ := (Prod.mk.injEq _ _ _ _).mp hres
              exact ⟨Or.inl h1.symm, h2.symm⟩
            · split at hres
              · obtain ⟨h1, h2⟩ := (Prod.mk.injEq _ _ _ _).mp hres
                exact ⟨Or.inl h1.symm, h2.symm⟩
              · rename_i hne
                exact absurd (by rw [hemp]; rfl) hne

def c9wDb : DB :=
  { templates := [(1, { num := 1 }), (2, { num := 2, isActive := false })] }

theorem C9_create_house_templates_witness :
    lookupRow c9wDb.houses 5 = none ∧
    (createHouse c9wDb ⟨1, .admin⟩ { name := some "h" } 5 100).1 = .ok ∧
    ((c9wDb.templates.filter (fun p => p.2.isActive)).length ≠ 0 ∧
      (createHouse c9wDb ⟨1, .admin⟩ { name := some "h" } 5
          100).2.activities = c9wDb.activities ++
        (List.range
            (c9wDb.templates.filter (fun p => p.2.isActive)).length).map
          (fun i => (100 + i,
            ({ houseId := 5, status := .pending } : Activity))) ∧
      (lookupRow (createHouse c9wDb ⟨1, .admin⟩ { name := some "h" } 5
          100).2.houses 5).map House.totalActivities =
        some ((c9wDb.templates.filter
          (fun p => p.2.isActive)).length : Int) ∧
      (lookupRow (createHouse c9wDb ⟨1, .admin⟩ { name := some "h" } 5
          100).2.houses 5).map House.completedActivities = some 0) :=
  ⟨by decide, by decide,
    (C9_create_house_templates c9wDb ⟨1, .admin⟩ { name := some "h" } 5 100
      (by decide)).1 (by decide)⟩

/-- C10: creating a house with `status = "completed"` and a valid non-null
`projectId` increments the target project's `housesCompleted` by 1 inside
the creation transaction, with no house status transition involved — a
rollup trigger the spec's §4.3 does not list. -/
theorem C10_creation_time_increment (db : DB) (c : Caller)
    (b : CreateHouseBody) (nh ab p : Nat) (pr : Project)
    (hst : b.status = some "completed")
    (hpid : b.projectId = some (some p))
    (hpr : lookupRow db.projects p = some pr)
    (hok : (createHouse db c b nh ab).1 = .ok) :
    lookupRow (createHouse db c b nh ab).2.projects p =
      some { housesCompleted := pr.housesCompleted + 1 } := by
  obtain ⟨r, d, hres⟩ : ∃ r d, createHouse db c b nh ab = (r, d) :=
    ⟨_, _, rfl⟩
  rw [hres] at hok ⊢
  dsimp only at hok ⊢
  subst hok
  unfold createHouse at hres
  dsimp only at hres
  rw [hst, hpid] at hres
  simp only [Option.getD_some] at hres
  rw [show parseHouseStatus "completed" = some HouseStatus.completed from
    rfl] at hres
  dsimp only at hres
  rw [hpr] at hres
  simp only [Option.isNone_some] at hres
  split at hres
  · exact absurd (congrArg Prod.fst hres) (by simp)
  · split at hres
    · split at hres
      · exact absurd (congrArg Prod.fst hres) (by simp)
      · split at hres
        · rename_i hv
          exact absurd hv (by simp)
        · split at hres
          · exact absurd (congrArg Prod.fst hres) (by simp)
          · rw [if_pos ⟨trivial, rfl⟩] at hres
            try dsimp only at hres
            have hd := ((Prod.mk.injEq _ _ _ _).mp hres).2.symm
            rw [hd]
            unfold incHousesCompleted
            dsimp only
            exact lookupRow_mapRow_self _ hpr
    · split at hres
      · exact absurd (congrArg Prod.fst hres) (by simp)
      · split at hres
        · rename_i hv
          exact absurd hv (by simp)
        · split at hres
          · exact absurd (congrArg Prod.fst hres) (by simp)
          · rw [if_pos ⟨trivial, rfl⟩] at hres
            try dsimp only at hres
            have hd := ((Prod.mk.injEq _ _ _ _).mp hres).2.symm
            rw [hd]
            unfold incHousesCompleted
            dsimp only
            exact lookupRow_mapRow_self _ hpr

def c10wDb : DB :=
  { templates := [(1, {})],
    projects := [(20, { housesCompleted := 3 })] }

theorem C10_creation_time_increment_witness :
    ({ name := some "h", status := some "completed",
        projectId := some (some 20) } : CreateHouseBody).status =
      some "completed" ∧
    ({ name := some "h", status := some "completed",
        projectId := some (some 20) } : CreateHouseBody).projectId =
      some (some 20) ∧
    lookupRow c10wDb.projects 20 = some { housesCompleted := 3 } ∧
    (createHouse c10wDb ⟨1, .reviewer⟩
      { name := some "h", status := some "completed",
        projectId := some (some 20) } 5 100).1 = .ok ∧
    lookupRow (createHouse c10wDb ⟨1, .reviewer⟩
        { name := some "h", status := some "completed",
          projectId := some (some 20) } 5 100).2.projects 20 =
      some { housesCompleted := 3 + 1 } :=
  ⟨rfl, rfl, by decide, by decide,
    C10_creation_time_increment c10wDb ⟨1, .reviewer⟩
      { name := some "h", status := some "completed",
        projectId := some (some 20) } 5 100 20 { housesCompleted := 3 }
      rfl rfl (by decide) (by decide)⟩

end CreekSide
